import Mathlib

/-!
# Intent classifier and knowledge base of the Pokémon chatbot

A shallow embedding of `analyzeIntent` (`src/src/chatbot.js`), of the
extractors it calls (`utils/typeConverter.js`, `utils/generationHelper.js`,
`utils/pokemonNameExtractor.js`, `config.js`), and of the knowledge base
(`utils/typeEffectiveness.js`, `getKnownPokemonByType`) with the renderings
computed from it, and of the handlers `handleTypeVsTypeEffectiveness`,
`handleGenerationPokemon` and `handleGenerationTypePokemon`.

Modelling conventions.

* A JavaScript string is a `List Char` (a well-formed sequence of code points).
  Every keyword and every regular expression of the classifier is made of
  BMP characters, so substring tests on code points and on UTF-16 code units
  agree on well-formed strings.  `String.prototype.length` is modelled by
  `jsLength`, which counts two units for a supplementary character.
* `toLowerCase` lowers the ASCII letters `A`..`Z` and leaves every other
  character alone.  This is exact on text whose cased characters are ASCII
  (Hangul syllables, digits and blanks have no case).  The general statements
  below put their hypotheses on the normalised text
  `normalizeInput userInput`, and their proofs never look inside the lowering.
* `parseInt` of a run of decimal digits is the natural number it denotes.
  JavaScript returns the double nearest to that number, which is the number
  itself below `2^53`; rounding is monotone, so the comparisons with `1`,
  `1025` and the truthiness test (`≠ 0`) have the same outcome.  A statement that
  gives the value itself is made for numbers below `2^53`.
* A number put into a text is printed as its decimal numeral when it is below
  `2^53`; what the engine prints for a larger one (rounded digits, exponent
  form, `Infinity`) is a parameter of the generation handlers (`numberToString`).
* Each regular expression is modelled by a function written for it, with the
  leftmost-match / greedy / lazy discipline spelled out in its doc comment.
* The type-effectiveness multiplier is a double that starts at `1` and is only
  ever multiplied by `2`, `0.5` or `0`; `JSNumber` holds the doubles this can
  produce (zero, powers of two, `Infinity`, `NaN`) with their exact products.
* A thrown JavaScript exception is the `error` case of `Except`; an identifier
  that a module uses without importing or declaring it raises a
  `ReferenceError` where it is evaluated.
* The species data provider is a parameter of the generation handlers, indexed
  by the number of the call and the id asked for, so that it may answer the same
  id differently at different times; a handler returns the ids it looked up
  together with its text.
* `KOREAN_TO_ENGLISH` (`pokemon-mappings.js`) and `POKEMON_NAME_MAP`
  (`data/pokemonNames.js`) are tables that are not part of the sources at hand;
  they are parameters (`NameTables`).
-/

namespace PokeChat

/-! ## JavaScript string primitives -/

/-- The text type: a JavaScript string as its list of characters. -/
abbrev Text := List Char

/-- Model of `s.includes(pat)`: `pat` occurs in `s` as a contiguous block. -/
def includes (s : Text) (pat : String) : Bool :=
  s.tails.any (fun t => pat.toList.isPrefixOf t)

/-- The regular-expression class `\d`: the ten ASCII digits. -/
def isDigit (c : Char) : Bool := c.isDigit

/-- The class `\s`, which is also what `trim()` strips: ECMAScript WhiteSpace
and LineTerminator code points. -/
def isWhiteSpace (c : Char) : Bool :=
  let n := c.toNat
  n = 0x09 || n = 0x0A || n = 0x0B || n = 0x0C || n = 0x0D || n = 0x20 ||
  n = 0xA0 || n = 0x1680 || (0x2000 ≤ n && n ≤ 0x200A) || n = 0x2028 ||
  n = 0x2029 || n = 0x202F || n = 0x205F || n = 0x3000 || n = 0xFEFF

/-- Line terminators: the characters the regular-expression dot does not match. -/
def isLineTerminator (c : Char) : Bool :=
  let n := c.toNat
  n = 0x0A || n = 0x0D || n = 0x2028 || n = 0x2029

/-- Model of `s.trim()`. -/
def trim (s : Text) : Text :=
  ((s.dropWhile isWhiteSpace).reverse.dropWhile isWhiteSpace).reverse

/-- Model of `s.toLowerCase()`, on ASCII letters (see the conventions above). -/
def toLowerCase (s : Text) : Text := s.map Char.toLower

/-- Model of `s.length`: the number of UTF-16 code units. -/
def jsLength (s : Text) : Nat :=
  (s.map (fun c => if c.toNat < 0x10000 then 1 else 2)).sum

/-- Model of `parseInt(ds)` for a run of decimal digits `ds`: the natural number
the run denotes.  JavaScript returns the double nearest to it, which is that
number whenever it is below `2^53`. -/
def parseInt (ds : Text) : Nat :=
  ds.foldl (fun acc c => 10 * acc + (c.toNat - 48)) 0

/-- Worker of `splitWhitespace`: `cur` is the current piece, reversed; `inGap`
tells that the previous character was white space. -/
def splitAux : Text → Text → Bool → List Text
  | [], cur, _ => [cur.reverse]
  | c :: rest, cur, inGap =>
    if isWhiteSpace c then
      if inGap then splitAux rest cur true
      else cur.reverse :: splitAux rest [] true
    else splitAux rest (c :: cur) false

/-- Model of `s.split(/\s+/)`: the pieces between maximal runs of white space (a leading
or trailing run yields an empty piece; the empty string yields one empty
piece). -/
def splitWhitespace (s : Text) : List Text := splitAux s [] false

/-- Model of `/^[a-zA-Z]+$/.test(w)`. -/
def isLatinWord (w : Text) : Bool := !w.isEmpty && w.all Char.isAlpha

/-- Model of `input.match(/(\d+)/)`: the first maximal run of digits, if any. -/
def matchFirstDigits (input : Text) : Option Text :=
  let ds := (input.dropWhile (fun c => !isDigit c)).takeWhile isDigit
  if ds.isEmpty then none else some ds

/-- Model of `/^\d+$/.test(s)`. -/
def isAllDigits (s : Text) : Bool := !s.isEmpty && s.all isDigit

/-- Model of `s.match(/^(\d+)번?$/)`: a non-empty digit run, optionally followed by `번`,
and nothing else; the capture is the digit run.  (The greedy `\d+` cannot give a
digit back: what follows a shorter run is a digit, neither `번` nor the end.) -/
def matchNumberOnly (s : Text) : Option Text :=
  let ds := s.takeWhile isDigit
  let rest := s.dropWhile isDigit
  if !ds.isEmpty && (rest == [] || rest == ['번']) then some ds else none

/-! ## `config.js` and `utils/typeConverter.js` -/

/-- Table `POKEMON_TYPES`, in the enumeration order of `Object.entries`. -/
def POKEMON_TYPES : List (String × String) :=
  [("노말", "normal"), ("불꽃", "fire"), ("물", "water"), ("풀", "grass"),
   ("전기", "electric"), ("얼음", "ice"), ("격투", "fighting"), ("독", "poison"),
   ("땅", "ground"), ("비행", "flying"), ("에스퍼", "psychic"), ("벌레", "bug"),
   ("바위", "rock"), ("고스트", "ghost"), ("드래곤", "dragon"), ("악", "dark"),
   ("강철", "steel"), ("페어리", "fairy")]

/-- Function `findAllPokemonTypes(input)`. -/
def findAllPokemonTypes (input : Text) : List String :=
  if input.isEmpty then []
  else (POKEMON_TYPES.map Prod.fst).filter
    (fun koreanType => !koreanType.toList.isEmpty && includes input koreanType)

/-- Function `findPokemonType(input, findSecond)`; `none` is `null`. -/
def findPokemonType (input : Text) (findSecond : Bool) : Option String :=
  if input.isEmpty then none
  else
    let foundTypes := (POKEMON_TYPES.map Prod.fst).filter
      (fun koreanType => !koreanType.toList.isEmpty && includes input koreanType)
    if findSecond && decide (foundTypes.length > 1) then foundTypes.get? 1
    else if foundTypes.length > 0 then foundTypes.get? 0 else none

/-! ## `utils/generationHelper.js` -/

/-- The `regionMap` literal of `getGenerationByRegion`. -/
def regionMap : List (String × Nat) :=
  [("관동", 1), ("성도", 2), ("호연", 3), ("신오", 4), ("하나", 5),
   ("칼로스", 6), ("알로라", 7), ("가라르", 8), ("팔데아", 9)]

/-- Function `getGenerationByRegion(region)`: `regionMap[region] || null`. -/
def getGenerationByRegion (region : String) : Option Nat :=
  match regionMap.lookup region with
  | some g => if g = 0 then none else some g
  | none => none

/-- Model of `input.match(/(\d+)세대/)`: at the leftmost position where a digit run is
directly followed by `세대`, the capture is that digit run.  (At a given start
the greedy `\d+` takes the maximal run; a shorter run is followed by a digit,
so only the maximal run can be followed by `세대`.) -/
def matchGenerationNumber (input : Text) : Option Text :=
  input.tails.findSome? (fun t =>
    let ds := t.takeWhile isDigit
    if !ds.isEmpty && "세대".toList.isPrefixOf (t.dropWhile isDigit) then some ds
    else none)

/-- Model of `input.match(/(관동|성도|...|팔데아)/)`: at the leftmost position where one
of the nine region names starts, the first alternative that matches. -/
def matchRegion (input : Text) : Option String :=
  input.tails.findSome? (fun t =>
    ["관동", "성도", "호연", "신오", "하나", "칼로스", "알로라", "가라르", "팔데아"].find?
      (fun r => r.toList.isPrefixOf t))

/-- Function `extractGeneration(input)`; `none` is `null`. -/
def extractGeneration (input : Text) : Option Nat :=
  match matchGenerationNumber input with
  | some ds => some (parseInt ds)
  | none =>
    match matchRegion input with
    | some r => getGenerationByRegion r
    | none => none

/-! ## `utils/pokemonNameExtractor.js` -/

/-- The two species-name tables, which the sources at hand import but do not
contain. -/
structure NameTables where
  /-- The value of `KOREAN_TO_ENGLISH[w]`, `none` when undefined. -/
  koreanToEnglish : Text → Option String
  /-- The list `Object.entries(POKEMON_NAME_MAP)`. -/
  nameMapEntries : List (String × String)
  /-- Truthiness of `POKEMON_NAME_MAP[w]`. -/
  nameMapHas : Text → Bool

/-- Method `PokemonAPI.getEnglishName(w)`: `KOREAN_TO_ENGLISH[w] || null`. -/
def getEnglishName (T : NameTables) (w : Text) : Option String :=
  match T.koreanToEnglish w with
  | some v => if v.toList.isEmpty then none else some v
  | none => none

/-- Function `extractPokemonName(input)`; `none` is `null`. -/
def extractPokemonName (T : NameTables) (input : Text) : Option String :=
  let inputWords := splitWhitespace input
  match inputWords.findSome? (fun word =>
      match getEnglishName T word with
      | some englishName => some englishName
      | none => if isLatinWord word then some (String.mk (toLowerCase word)) else none) with
  | some r => some r
  | none =>
    match T.nameMapEntries.find? (fun e => includes input e.1) with
    | some e => some e.2
    | none =>
      inputWords.findSome? (fun word =>
        if T.nameMapHas word || isLatinWord word then some (String.mk (toLowerCase word))
        else none)

/-- One start position of a pattern `(.+?)S`: the shortest non-empty run of
non-line-terminator characters after which `suffix` matches.  `acc` is the run
read so far, reversed. -/
def lazyCaptureAt (suffix : Text → Bool) : Text → Text → Option Text
  | [], _ => none
  | c :: rest, acc =>
    if isLineTerminator c then none
    else if suffix rest then some (c :: acc).reverse
    else lazyCaptureAt suffix rest (c :: acc)

/-- Model of `input.match(/(.+?)S/)`: the capture at the leftmost start position that
admits a match. -/
def lazyCapture (suffix : Text → Bool) (input : Text) : Option Text :=
  input.tails.findSome? (fun t => lazyCaptureAt suffix t [])

/-- What follows the capture in `/(.+?)로\s*시작하는/` and its two siblings:
the particle, any white space, then the verb.  (The verb does not start with
white space, so only the maximal white-space run can precede it.) -/
def particleThen (particle verb : String) (r : Text) : Bool :=
  particle.toList.isPrefixOf r &&
    verb.toList.isPrefixOf ((r.drop particle.toList.length).dropWhile isWhiteSpace)

/-- The `patterns` array of `extractSearchQuery`, as suffix tests. -/
def searchPatterns : List (Text → Bool) :=
  [particleThen "로" "시작하는", particleThen "로" "끝나는",
   particleThen "가" "들어간", fun r => "포켓몬".toList.isPrefixOf r]

/-- Function `extractSearchQuery(input)`; `none` is `null`. -/
def extractSearchQuery (input : Text) : Option String :=
  match searchPatterns.findSome? (fun p => lazyCapture p input) with
  | some cap => some (String.mk (trim cap))
  | none =>
    let words := (splitWhitespace input).filter (fun word =>
      decide (jsLength word > 1) &&
        !(["포켓몬", "찾아줘", "검색", "알려줘"].contains (String.mk word)))
    match words with
    | w :: _ => some (String.mk w)
    | [] => none

/-! ## `chatbot.js`: the classifier -/

/-- The intent objects `analyzeIntent` returns: the `type` tag with its
`parameters`. -/
inductive Intent where
  | quit
  | get_pokemon_info (identifier : String)
  | get_pokemon_stats (identifier : String)
  | get_pokemon_by_type (type : String)
  | search_pokemon (query : String)
  | get_pokemon_types
  | get_generation_pokemon (generation : Nat)
  | get_generation_type_pokemon (generation : Nat) (type : String)
  | get_type_vs_type_effectiveness (type1 type2 : String)
  | get_type_effectiveness_info (type : String)
  | help
  deriving DecidableEq

/-- Truthiness of a string-or-null value: `null` and the empty string are
falsy. -/
def truthyString (v : Option String) : Option String :=
  match v with
  | some s => if s.toList.isEmpty then none else some s
  | none => none

/-- Truthiness of a number-or-null value: `null` and `0` are falsy. -/
def truthyNumber (v : Option Nat) : Option Nat :=
  match v with
  | some n => if n = 0 then none else some n
  | none => none

/-- The test `pokemonId >= 1 && pokemonId <= 1025` followed by the return of
`get_pokemon_info` with `pokemonId.toString()`. -/
def pokedexIntent (pokemonId : Nat) : Option Intent :=
  if 1 ≤ pokemonId ∧ pokemonId ≤ 1025 then
    some (.get_pokemon_info (Nat.repr pokemonId))
  else none

/-- Rule 1 (line 104): a quit keyword occurs. -/
def quitKeyword (input : Text) : Bool :=
  includes input "quit" || includes input "exit" || includes input "종료"

/-- Rule 2 (lines 108-121): the marker `도감` or `번호`, then the first digit
run, in range.  `none` means the cascade goes on. -/
def pokedexNumberRule (input : Text) : Option Intent :=
  if includes input "도감" || includes input "번호" then
    match matchFirstDigits input with
    | some ds => pokedexIntent (parseInt ds)
    | none => none
  else none

/-- Rule 3 (lines 123-133): the whole input is a digit run, in range. -/
def directNumberRule (input : Text) : Option Intent :=
  if isAllDigits (trim input) then pokedexIntent (parseInt (trim input)) else none

/-- Rule 4 (lines 135-147): a digit run with an optional `번`, in range. -/
def numberSuffixRule (input : Text) : Option Intent :=
  match matchNumberOnly input with
  | some ds => pokedexIntent (parseInt ds)
  | none => none

/-- Rule 5, the guard (line 150): an effectiveness keyword occurs. -/
def effectivenessKeyword (input : Text) : Bool :=
  includes input "상성" || includes input "효과" || includes input "약점" ||
    includes input "강점"

/-- Method `analyzeTypeEffectivenessQuery(input)`. -/
def analyzeTypeEffectivenessQuery (input : Text) : Intent :=
  match findAllPokemonTypes input with
  | t1 :: t2 :: _ => .get_type_vs_type_effectiveness t1 t2
  | [t] => .get_type_effectiveness_info t
  | [] => .help

/-- Method `analyzeGenerationQuery(input)`. -/
def analyzeGenerationQuery (input : Text) : Intent :=
  match truthyNumber (extractGeneration input) with
  | some generation => .get_generation_pokemon generation
  | none => .help

/-- Method `analyzeComplexQuery(input)`; `none` is `null`. -/
def analyzeComplexQuery (input : Text) : Option Intent :=
  let generation := truthyNumber (extractGeneration input)
  let types := findAllPokemonTypes input
  match generation, types with
  | some g, t :: _ => some (.get_generation_type_pokemon g t)
  | none, t1 :: t2 :: _ => some (.get_type_vs_type_effectiveness t1 t2)
  | _, _ => none

/-- Rule 7, the guard (lines 161-167): a generation or region keyword occurs. -/
def generationKeyword (input : Text) : Bool :=
  includes input "세대" || includes input "1세대" || includes input "2세대" ||
  includes input "3세대" || includes input "4세대" || includes input "5세대" ||
  includes input "6세대" || includes input "7세대" || includes input "8세대" ||
  includes input "9세대" || includes input "관동" || includes input "성도" ||
  includes input "호연" || includes input "신오" || includes input "하나" ||
  includes input "칼로스" || includes input "알로라" || includes input "가라르" ||
  includes input "팔데아"

/-- Rule 9, the inner test (line 183): a stats keyword occurs. -/
def statsKeyword (input : Text) : Bool :=
  includes input "능력치" || includes input "스탯" || includes input "스텟"

/-- Rule 10 (lines 195-204): a search keyword and a truthy search query. -/
def searchRule (input : Text) : Option Intent :=
  if includes input "찾" || includes input "검색" || includes input "어떤" ||
      includes input "포켓몬이" then
    match truthyString (extractSearchQuery input) with
    | some searchQuery => some (.search_pokemon searchQuery)
    | none => none
  else none

/-- Rule 11, the guard (lines 207-208). -/
def typeListKeyword (input : Text) : Bool :=
  (includes input "타입" &&
    (includes input "목록" || includes input "종류" || includes input "모든")) ||
  includes input "어떤 타입들이"

/-- The body of `analyzeIntent` after its first line, on the normalised
`input`: the cascade of lines 103-216, in source order. -/
def classifyNormalized (T : NameTables) (input : Text) : Intent :=
  if quitKeyword input then .quit else
  match pokedexNumberRule input with
  | some r => r
  | none =>
  match directNumberRule input with
  | some r => r
  | none =>
  match numberSuffixRule input with
  | some r => r
  | none =>
  if effectivenessKeyword input then analyzeTypeEffectivenessQuery input else
  match analyzeComplexQuery input with
  | some complexQuery => complexQuery
  | none =>
  if generationKeyword input then analyzeGenerationQuery input else
  match truthyString (findPokemonType input false) with
  | some typeMatch => .get_pokemon_by_type typeMatch
  | none =>
  match truthyString (extractPokemonName T input) with
  | some pokemonName =>
    if statsKeyword input then .get_pokemon_stats pokemonName
    else .get_pokemon_info pokemonName
  | none =>
  match searchRule input with
  | some r => r
  | none =>
  if typeListKeyword input then .get_pokemon_types else .help

/-- The first line of `analyzeIntent`: `userInput.toLowerCase().trim()`. -/
def normalizeInput (userInput : String) : Text :=
  trim (toLowerCase userInput.toList)

/-- Method `analyzeIntent(userInput)`. -/
def analyzeIntent (T : NameTables) (userInput : String) : Intent :=
  classifyNormalized T (normalizeInput userInput)

/-- The characters of a bare catalogue-number input: the ten digits and `번`. -/
def bareNumberChars : List Char := "0123456789번".toList

/-- Name tables with no entry at all. -/
def emptyTables : NameTables :=
  { koreanToEnglish := fun _ => none, nameMapEntries := [], nameMapHas := fun _ => false }

/-! ## `utils/typeEffectiveness.js`: numbers

`calculateTypeEffectiveness` starts its accumulator at `1` and multiplies it by
`2`, `0.5` or `0`.  On IEEE-754 doubles the accumulator is therefore always
`0`, a power of two, `Infinity` (after an overflow past `2^1023`) or `NaN`
(`Infinity * 0`); `JSNumber` holds exactly these values, and the three
multiplications below are the double multiplications on them. -/

/-- The double values the multiplier can take: `0`, `2^k`, `Infinity`, `NaN`.
The doubles among the `pow2 k` are those with `-1074 ≤ k ≤ 1023`. -/
inductive JSNumber where
  | zero
  | pow2 (k : Int)
  | infinity
  | nan
  deriving DecidableEq

namespace JSNumber

/-- The number `1`. -/
def one : JSNumber := pow2 0

/-- The number `0.25`. -/
def quarter : JSNumber := pow2 (-2)

/-- The number `0.5`. -/
def half : JSNumber := pow2 (-1)

/-- The number `2`. -/
def two : JSNumber := pow2 1

/-- The number `4`. -/
def four : JSNumber := pow2 2

/-- Double multiplication by two, `x * 2`: exact up to `2^1023`, whose double is
`Infinity`. -/
def timesTwo : JSNumber → JSNumber
  | zero => zero
  | pow2 k => if k < 1023 then pow2 (k + 1) else infinity
  | infinity => infinity
  | nan => nan

/-- Double multiplication by a half, `x * 0.5`: exact down to the least
subnormal `2^-1074`, whose half is a tie that rounds to even, `0`. -/
def timesHalf : JSNumber → JSNumber
  | zero => zero
  | pow2 k => if -1074 < k then pow2 (k - 1) else zero
  | infinity => infinity
  | nan => nan

/-- Double multiplication by zero, `x * 0`: `Infinity * 0` is `NaN`. -/
def timesZero : JSNumber → JSNumber
  | zero => zero
  | pow2 _ => zero
  | infinity => nan
  | nan => nan

/-- The rational number a finite value stands for; `Infinity` and `NaN` stand
for none. -/
def toRat : JSNumber → Option ℚ
  | zero => some 0
  | pow2 k => some ((2 : ℚ) ^ k)
  | infinity => none
  | nan => none

end JSNumber

/-- The accumulator after at most `n` multiplications: zero, or `2^k` with
`-n ≤ k ≤ n`. -/
def JSNumber.within (n : Nat) : JSNumber → Prop
  | .zero => True
  | .pow2 k => -(n : Int) ≤ k ∧ k ≤ n
  | .infinity => False
  | .nan => False

/-! ## `utils/typeEffectiveness.js`: the matrix -/

/-- One value of `TYPE_EFFECTIVENESS`: the three arrays of an attacking type.
`noEffect` is `none` for the entries that have no such property. -/
structure TypeChart where
  superEffective : List String
  notVeryEffective : List String
  noEffect : Option (List String)

/-- Table `TYPE_EFFECTIVENESS`, in source order. -/
def TYPE_EFFECTIVENESS : List (String × TypeChart) :=
  [("normal", ⟨[],
    ["rock", "steel"],
    some ["ghost"]⟩),
   ("fire", ⟨["grass", "ice", "bug", "steel"],
    ["fire", "water", "rock", "dragon"],
    none⟩),
   ("water", ⟨["fire", "ground", "rock"],
    ["water", "grass", "dragon"],
    none⟩),
   ("electric", ⟨["water", "flying"],
    ["electric", "grass", "dragon"],
    some ["ground"]⟩),
   ("grass", ⟨["water", "ground", "rock"],
    ["fire", "grass", "poison", "flying", "bug", "dragon", "steel"],
    none⟩),
   ("ice", ⟨["grass", "ground", "flying", "dragon"],
    ["fire", "water", "ice", "steel"],
    none⟩),
   ("fighting", ⟨["normal", "ice", "rock", "dark", "steel"],
    ["poison", "flying", "psychic", "bug", "fairy"],
    some ["ghost"]⟩),
   ("poison", ⟨["grass", "fairy"],
    ["poison", "ground", "rock", "ghost"],
    some ["steel"]⟩),
   ("ground", ⟨["fire", "electric", "poison", "rock", "steel"],
    ["grass", "bug"],
    some ["flying"]⟩),
   ("flying", ⟨["fighting", "bug", "grass"],
    ["electric", "rock", "steel"],
    none⟩),
   ("psychic", ⟨["fighting", "poison"],
    ["psychic", "steel"],
    some ["dark"]⟩),
   ("bug", ⟨["grass", "psychic", "dark"],
    ["fire", "fighting", "poison", "flying", "ghost", "steel", "fairy"],
    none⟩),
   ("rock", ⟨["fire", "ice", "flying", "bug"],
    ["fighting", "ground", "steel"],
    none⟩),
   ("ghost", ⟨["psychic", "ghost"],
    ["dark"],
    some ["normal"]⟩),
   ("dragon", ⟨["dragon"],
    ["steel"],
    some ["fairy"]⟩),
   ("dark", ⟨["psychic", "ghost"],
    ["fighting", "dark", "fairy"],
    none⟩),
   ("steel", ⟨["ice", "rock", "fairy"],
    ["fire", "water", "electric", "steel"],
    none⟩),
   ("fairy", ⟨["fighting", "dragon", "dark"],
    ["fire", "poison", "steel"],
    none⟩)]

/-- Table `KOREAN_TYPE_NAMES`, in source order. -/
def KOREAN_TYPE_NAMES : List (String × String) :=
  [("normal", "노말"), ("fire", "불꽃"), ("water", "물"), ("electric", "전기"), ("grass", "풀"), ("ice", "얼음"), ("fighting", "격투"), ("poison", "독"), ("ground", "땅"), ("flying", "비행"), ("psychic", "에스퍼"), ("bug", "벌레"), ("rock", "바위"), ("ghost", "고스트"), ("dragon", "드래곤"), ("dark", "악"), ("steel", "강철"), ("fairy", "페어리")]

/-- One iteration of the loop of `calculateTypeEffectiveness` (lines 115-126). -/
def effectivenessStep (attackType : String) (totalMultiplier : JSNumber)
    (defenseType : String) : JSNumber :=
  match TYPE_EFFECTIVENESS.lookup attackType with
  | none => totalMultiplier
  | some effectiveness =>
    if effectiveness.superEffective.contains defenseType then totalMultiplier.timesTwo
    else if effectiveness.notVeryEffective.contains defenseType then
      totalMultiplier.timesHalf
    else if (match effectiveness.noEffect with
        | some l => l.contains defenseType
        | none => false) then totalMultiplier.timesZero
    else totalMultiplier

/-- Function `calculateTypeEffectiveness(attackType, defenseTypes)` on an array
of defending types. -/
def calculateTypeEffectiveness (attackType : String) (defenseTypes : List String) :
    JSNumber :=
  defenseTypes.foldl (effectivenessStep attackType) JSNumber.one

/-- Function `getEffectivenessText(multiplier)`. -/
def getEffectivenessText (multiplier : JSNumber) : String :=
  if multiplier = JSNumber.zero then "효과가 없습니다"
  else if multiplier = JSNumber.quarter then "매우 효과가 별로입니다"
  else if multiplier = JSNumber.half then "효과가 별로입니다"
  else if multiplier = JSNumber.one then "보통 효과입니다"
  else if multiplier = JSNumber.two then "효과가 굉장합니다"
  else if multiplier = JSNumber.four then "매우 효과가 굉장합니다"
  else "알 수 없는 효과입니다"

/-- The single-defender factor in the words of the specification: 2 for a
type of the super-effective set, 1/2 for one of the not-very-effective set, 0
for one of the no-effect set, 1 otherwise (also for an unknown attacker). -/
def specFactor (attackType defenseType : String) : ℚ :=
  match TYPE_EFFECTIVENESS.lookup attackType with
  | none => 1
  | some chart =>
    if defenseType ∈ chart.superEffective then 2
    else if defenseType ∈ chart.notVeryEffective then 1 / 2
    else if defenseType ∈ chart.noEffect.getD [] then 0
    else 1

/-- The multiplier in the words of the specification: the product of the
single-defender factors. -/
def specMultiplier (attackType : String) (defenseTypes : List String) : ℚ :=
  (defenseTypes.map (specFactor attackType)).prod

/-! ## `utils/typeConverter.js` and `chatbot.js`: the single-type listing -/

/-- Function `convertKoreanToEnglishType(koreanType)`; `none` is `null`. -/
def convertKoreanToEnglishType (koreanType : String) : Option String :=
  if koreanType.toList.isEmpty then none
  else truthyString (POKEMON_TYPES.lookup koreanType)

/-- An exception raised by the JavaScript engine. -/
inductive JSError where
  /-- A `ReferenceError`, from evaluating an identifier that has no binding. -/
  | referenceError
  deriving DecidableEq

deriving instance DecidableEq for Except

/-- The expression `names.map(t => KOREAN_TYPE_NAMES[t]).join(', ')`; `join`
renders an undefined element as the empty string. -/
def joinKoreanNames (names : List String) : String :=
  ", ".intercalate (names.map (fun t => (KOREAN_TYPE_NAMES.lookup t).getD ""))

/-- Method `handleTypeEffectivenessInfo({ type })` (lines 509-539).  Line 518
evaluates the identifier `TYPE_EFFECTIVENESS`.  The module `chatbot.js` imports
`calculateTypeEffectiveness`, `getEffectivenessText`,
`getGenerationByPokemonId`, `POKEMON_GENERATIONS` and `KOREAN_TYPE_NAMES` from
`utils/typeEffectiveness.js` (lines 6-12) but not `TYPE_EFFECTIVENESS`, and it
declares no such name, so the evaluation raises a `ReferenceError` and lines
519-538 are never reached.  Only the early return of line 515, for a name that
`convertKoreanToEnglishType` does not know, produces a text. -/
def handleTypeEffectivenessInfo (type : String) : Except JSError String :=
  match convertKoreanToEnglishType type with
  | none => .ok ("❌ \"" ++ type ++ "\" 타입을 찾을 수 없습니다.")
  | some _ => .error JSError.referenceError

/-! ## `utils/typeEffectiveness.js`: generations -/

/-- One value of `POKEMON_GENERATIONS`. -/
structure GenerationInfo where
  name : String
  start : Nat
  stop : Nat
  region : String
  deriving DecidableEq

/-- Table `POKEMON_GENERATIONS` (the field `end` is called `stop` here), in the
order of `Object.entries`. -/
def POKEMON_GENERATIONS : List (Nat × GenerationInfo) :=
  [(1, ⟨"1세대", 1, 151, "관동지방"⟩), (2, ⟨"2세대", 152, 251, "성도지방"⟩),
   (3, ⟨"3세대", 252, 386, "호연지방"⟩), (4, ⟨"4세대", 387, 493, "신오지방"⟩),
   (5, ⟨"5세대", 494, 649, "하나지방"⟩), (6, ⟨"6세대", 650, 721, "칼로스지방"⟩),
   (7, ⟨"7세대", 722, 809, "알로라지방"⟩), (8, ⟨"8세대", 810, 905, "가라르지방"⟩),
   (9, ⟨"9세대", 906, 1025, "팔데아지방"⟩)]

/-- Function `getGenerationByPokemonId(pokemonId)` on an integer; the result
pairs `generation` with the fields of the entry, `none` is `null`. -/
def getGenerationByPokemonId (pokemonId : Int) : Option (Nat × GenerationInfo) :=
  POKEMON_GENERATIONS.find? (fun e =>
    decide ((e.2.start : Int) ≤ pokemonId) && decide (pokemonId ≤ (e.2.stop : Int)))

/-! ## `chatbot.js`: the known-species index -/

/-- The literal `pokemonData` of `getKnownPokemonByType` (lines 730-911). -/
def pokemonData : List (Nat × List (String × List Nat)) :=
  [(1,
    [("노말", [16, 17, 18, 19, 20, 21, 22, 39, 40, 52, 53, 83, 84, 85, 108, 113, 115, 128, 132, 133, 137, 143]),
     ("불꽃", [4, 5, 6, 37, 38, 58, 59, 77, 78, 126, 136]),
     ("물", [7, 8, 9, 54, 55, 60, 61, 62, 72, 73, 86, 87, 90, 91, 98, 99, 116, 117, 118, 119, 120, 121, 129, 130, 131, 134, 138, 139, 140, 141]),
     ("전기", [25, 26, 81, 82, 100, 101, 125, 135, 145]),
     ("풀", [1, 2, 3, 43, 44, 45, 46, 47, 69, 70, 71, 102, 103, 114]),
     ("얼음", [87, 91, 124, 131, 144]),
     ("격투", [56, 57, 62, 66, 67, 68, 106, 107]),
     ("독", [1, 2, 3, 13, 14, 15, 23, 24, 29, 30, 31, 32, 33, 34, 41, 42, 43, 44, 45, 48, 49, 69, 70, 71, 72, 73, 88, 89, 109, 110]),
     ("땅", [27, 28, 31, 34, 50, 51, 74, 75, 76, 95, 104, 105, 111, 112]),
     ("비행", [6, 12, 15, 16, 17, 18, 21, 22, 41, 42, 83, 84, 85, 123, 130, 142, 144, 145, 146, 149]),
     ("에스퍼", [63, 64, 65, 79, 80, 96, 97, 102, 103, 121, 122, 124, 150, 151]),
     ("벌레", [10, 11, 12, 13, 14, 15, 46, 47, 48, 49, 123, 127]),
     ("바위", [74, 75, 76, 95, 111, 112, 138, 139, 140, 141, 142]),
     ("고스트", [92, 93, 94]),
     ("드래곤", [147, 148, 149]),
     ("악", []),
     ("강철", [81, 82]),
     ("페어리", [35, 36, 39, 40, 122])]),
   (2,
    [("노말", [161, 162, 163, 164, 174, 190, 203, 206, 216, 217, 233, 234, 235, 241, 242]),
     ("불꽃", [155, 156, 157, 218, 219, 240, 244]),
     ("물", [158, 159, 160, 170, 171, 183, 184, 186, 194, 195, 211, 222, 223, 224, 226, 230, 245]),
     ("전기", [161, 162, 172, 179, 180, 181, 243]),
     ("풀", [152, 153, 154, 182, 187, 188, 189, 191, 192, 251]),
     ("얼음", [86, 87, 91, 124, 131, 144, 215, 220, 221, 225]),
     ("격투", [56, 57, 62, 66, 67, 68, 106, 107, 236, 237]),
     ("독", [167, 168, 169, 193, 211]),
     ("땅", [194, 195, 206, 207, 208, 218, 219, 247]),
     ("비행", [16, 17, 18, 21, 22, 83, 84, 85, 123, 130, 142, 144, 145, 146, 149, 163, 164, 165, 166, 169, 176, 193, 198, 207, 225, 226, 227, 249, 250]),
     ("에스퍼", [63, 64, 65, 79, 80, 96, 97, 102, 103, 121, 122, 124, 150, 151, 177, 178, 196, 199, 201, 202, 203, 249, 251]),
     ("벌레", [10, 11, 12, 13, 14, 15, 46, 47, 48, 49, 123, 127, 165, 166, 167, 168, 193, 204, 205, 212, 213, 214]),
     ("바위", [74, 75, 76, 95, 111, 112, 138, 139, 140, 141, 142, 185, 208, 213, 219, 246, 247, 248]),
     ("고스트", [92, 93, 94, 200]),
     ("드래곤", [147, 148, 149, 230]),
     ("악", [197, 198, 215, 228, 229, 248]),
     ("강철", [81, 82, 205, 208, 212, 227]),
     ("페어리", [35, 36, 39, 40, 122, 173, 174, 175, 176, 183, 184, 209, 210])]),
   (3,
    [("노말", [263, 264, 276, 277, 287, 288, 289, 293, 294, 295, 300, 301, 327, 333, 334, 335, 351, 352]),
     ("불꽃", [255, 256, 257, 322, 323, 324, 351, 383]),
     ("물", [258, 259, 260, 270, 271, 272, 278, 279, 283, 284, 318, 319, 320, 321, 339, 340, 341, 342, 349, 350, 363, 364, 365, 366, 367, 368, 369, 370, 382]),
     ("전기", [309, 310, 311, 312, 351]),
     ("풀", [252, 253, 254, 270, 271, 272, 273, 274, 275, 285, 286, 315, 331, 332, 345, 346, 357]),
     ("얼음", [361, 362, 363, 364, 365, 378]),
     ("격투", [256, 257, 286, 296, 297, 307, 308]),
     ("독", [269, 316, 317, 336, 342, 434, 435, 451, 452, 453, 454]),
     ("땅", [260, 290, 291, 322, 323, 328, 329, 330, 339, 340, 343, 344, 383]),
     ("비행", [267, 269, 276, 277, 278, 279, 283, 284, 333, 334, 357, 358, 373, 384]),
     ("에스퍼", [280, 281, 282, 307, 308, 325, 326, 337, 338, 343, 344, 358, 360, 375, 376, 380, 381, 385, 386]),
     ("벌레", [265, 266, 267, 268, 269, 283, 284, 290, 291, 313, 314, 347, 348, 401, 402, 412, 413, 414, 415, 416]),
     ("바위", [299, 304, 305, 306, 337, 338, 345, 346, 347, 348, 369, 377, 408, 409, 410, 411]),
     ("고스트", [292, 302, 353, 354, 355, 356, 359, 477, 478, 487]),
     ("드래곤", [329, 330, 371, 372, 373, 384]),
     ("악", [261, 262, 275, 302, 318, 319, 332, 335, 342, 359, 430, 461, 491, 509, 510]),
     ("강철", [304, 305, 306, 374, 375, 376, 379, 410, 411, 448, 462]),
     ("페어리", [280, 281, 282, 303, 439])]),
   (4,
    [("노말", [396, 397, 398, 399, 400, 424, 427, 428, 431, 432, 440, 441, 446, 463, 474, 486, 493]),
     ("불꽃", [390, 391, 392, 467, 485, 494]),
     ("물", [393, 394, 395, 400, 418, 419, 422, 423, 456, 457, 484, 489, 490]),
     ("전기", [403, 404, 405, 417, 462, 466, 479, 522, 523]),
     ("풀", [387, 388, 389, 406, 407, 420, 421, 455, 459, 460, 465, 470, 492]),
     ("얼음", [459, 460, 461, 471, 473, 478]),
     ("격투", [391, 392, 447, 448, 475, 532, 533, 534, 538, 539, 559, 560]),
     ("독", [434, 435, 451, 452, 453, 454, 543, 544, 545, 568, 569, 590, 591]),
     ("땅", [389, 422, 423, 443, 444, 445, 449, 450, 472, 473, 529, 530, 551, 552, 553, 618, 622, 623, 645]),
     ("비행", [396, 397, 398, 414, 415, 416, 425, 426, 430, 441, 456, 457, 458, 468, 469, 479, 487, 488, 493, 519, 520, 521, 527, 528, 561, 567, 628, 630, 641, 642]),
     ("에스퍼", [385, 386, 439, 475, 480, 481, 482, 488, 493, 517, 518, 561, 574, 575, 576, 577, 578, 579, 605, 606, 648]),
     ("벌레", [401, 402, 412, 413, 414, 415, 416, 451, 452, 469, 540, 541, 542, 543, 544, 545, 588, 589, 595, 596, 616, 617, 632]),
     ("바위", [299, 408, 409, 410, 411, 438, 464, 476, 524, 525, 526, 564, 565, 567, 639]),
     ("고스트", [425, 426, 429, 442, 477, 478, 479, 487, 562, 563, 592, 593, 607, 608, 609, 622, 623]),
     ("드래곤", [443, 444, 445, 483, 484, 487, 610, 611, 612, 621, 633, 634, 635, 643, 644, 646, 718]),
     ("악", [198, 215, 228, 229, 248, 275, 302, 318, 319, 332, 335, 342, 359, 430, 434, 435, 442, 452, 461, 491, 509, 510, 551, 552, 553, 560, 624, 625, 629, 630, 633, 634, 635, 658, 675]),
     ("강철", [81, 82, 205, 208, 212, 227, 304, 305, 306, 374, 375, 376, 379, 395, 410, 411, 436, 437, 448, 462, 476, 483, 485, 530, 589, 597, 598, 599, 623, 624, 625, 632, 638, 649, 679, 680, 681]),
     ("페어리", [35, 36, 39, 40, 122, 173, 174, 175, 176, 183, 184, 209, 210, 280, 281, 282, 303, 439, 468, 546, 547])]),
   (5,
    [("노말", [504, 505, 506, 507, 508, 519, 520, 521, 531, 572, 573, 585, 586, 626, 627, 628, 648]),
     ("불꽃", [498, 499, 500, 513, 514, 554, 555, 607, 608, 609, 631, 643, 653, 654, 655]),
     ("물", [501, 502, 503, 515, 516, 535, 536, 537, 550, 564, 565, 580, 581, 592, 593, 594, 647, 656, 657, 658]),
     ("전기", [522, 523, 587, 595, 596, 602, 603, 604, 618, 644, 659, 660, 661, 694, 695]),
     ("풀", [495, 496, 497, 511, 512, 540, 541, 542, 546, 547, 548, 549, 556, 585, 586, 590, 591, 640, 650, 651, 652]),
     ("얼음", [582, 583, 584, 613, 614, 615, 646]),
     ("격투", [532, 533, 534, 538, 539, 559, 560, 619, 620, 638, 639, 647, 648, 674, 675, 676, 701, 739, 740, 745, 759, 760]),
     ("독", [543, 544, 545, 568, 569, 590, 591, 690, 691]),
     ("땅", [529, 530, 551, 552, 553, 618, 622, 623, 645, 718, 749, 750]),
     ("비행", [519, 520, 521, 527, 528, 561, 566, 567, 580, 581, 587, 627, 628, 630, 641, 642, 645, 661, 663, 664, 665, 666, 667, 668, 669, 670, 671, 701, 714, 715, 717, 722, 723, 724]),
     ("에스퍼", [517, 518, 527, 528, 561, 574, 575, 576, 577, 578, 579, 605, 606, 648, 655, 677, 678, 686, 687, 720, 765, 779, 786]),
     ("벌레", [540, 541, 542, 543, 544, 545, 557, 558, 588, 589, 595, 596, 616, 617, 632, 664, 665, 666, 736, 737, 738, 742, 743, 767, 768]),
     ("바위", [524, 525, 526, 564, 565, 566, 567, 622, 623, 639, 688, 689, 696, 697, 698, 699, 703]),
     ("고스트", [562, 563, 592, 593, 607, 608, 609, 622, 623, 678, 679, 680, 681, 708, 709, 710, 711, 720, 724, 769, 770, 778, 781]),
     ("드래곤", [610, 611, 612, 621, 633, 634, 635, 643, 644, 646, 691, 696, 697, 698, 704, 705, 706, 714, 715, 718, 776, 780, 782, 783, 784]),
     ("악", [509, 510, 551, 552, 553, 560, 570, 571, 624, 625, 629, 630, 633, 634, 635, 658, 675, 686, 687, 717, 720, 727, 799]),
     ("강철", [524, 525, 526, 530, 589, 597, 598, 599, 623, 624, 625, 632, 638, 649, 679, 680, 681, 797, 798, 801]),
     ("페어리", [546, 547, 669, 670, 671, 682, 683, 684, 685, 700, 703, 707, 716, 730, 778, 786, 788])]),
   (6,
    [("노말", [659, 660, 661, 667, 668, 676]),
     ("불꽃", [653, 654, 655, 662, 663, 664, 667, 668]),
     ("물", [656, 657, 658, 690, 691, 692, 693]),
     ("전기", [659, 660, 661, 694, 695, 702]),
     ("풀", [650, 651, 652, 672, 673]),
     ("얼음", [698, 699, 712, 713]),
     ("격투", [674, 675, 676, 701]),
     ("독", [690, 691]),
     ("땅", [718]),
     ("비행", [661, 663, 664, 665, 666, 667, 668, 669, 670, 671, 701, 714, 715, 717, 722, 723, 724]),
     ("에스퍼", [655, 677, 678, 686, 687, 720]),
     ("벌레", [664, 665, 666, 736, 737, 738]),
     ("바위", [688, 689, 696, 697, 698, 699, 703]),
     ("고스트", [678, 679, 680, 681, 708, 709, 710, 711, 720, 724]),
     ("드래곤", [691, 696, 697, 698, 704, 705, 706, 714, 715, 718]),
     ("악", [658, 675, 686, 687, 717, 720, 727]),
     ("강철", [679, 680, 681, 703, 707]),
     ("페어리", [669, 670, 671, 682, 683, 684, 685, 700, 703, 707, 716, 730])]),
   (7,
    [("노말", [734, 735, 759, 760, 765, 772, 775, 780]),
     ("불꽃", [725, 726, 727, 741, 757, 758]),
     ("물", [728, 729, 730, 746, 747, 748, 751, 752, 771]),
     ("전기", [737, 738, 777, 785]),
     ("풀", [722, 723, 724, 753, 754, 755, 756, 781, 787]),
     ("얼음", [712, 713, 739, 740]),
     ("격투", [739, 740, 745, 759, 760, 766, 794]),
     ("독", [747, 748, 757, 758, 793]),
     ("땅", [749, 750]),
     ("비행", [722, 723, 724, 741, 774, 787]),
     ("에스퍼", [765, 779, 786]),
     ("벌레", [736, 737, 738, 742, 743, 767, 768]),
     ("바위", [744, 745, 774, 776]),
     ("고스트", [769, 770, 778, 781, 792]),
     ("드래곤", [776, 780, 782, 783, 784]),
     ("악", [799]),
     ("강철", [777, 797, 798, 801]),
     ("페어리", [778, 788])]),
   (8,
    [("노말", [819, 820, 831, 832, 862, 863]),
     ("불꽃", [813, 814, 815, 838, 839, 850]),
     ("물", [816, 817, 818, 833, 834, 835, 836, 846, 847]),
     ("전기", [835, 836, 848, 849]),
     ("풀", [810, 811, 812, 829, 830, 840, 841, 842, 893]),
     ("얼음", [872, 873, 875, 881]),
     ("격투", [870, 871, 889, 890, 891, 892]),
     ("독", [747, 748, 843, 844]),
     ("땅", [843, 844, 867, 868]),
     ("비행", [820, 821, 822, 823, 842, 845]),
     ("에스퍼", [856, 857, 858, 876, 877, 878, 898]),
     ("벌레", [825, 826, 850, 872, 873]),
     ("바위", [837, 838, 839, 874]),
     ("고스트", [854, 855, 864, 885, 886, 887, 888, 896]),
     ("드래곤", [882, 883, 884, 885, 886, 887, 894, 895]),
     ("악", [827, 828, 859, 860, 861, 862, 863, 893]),
     ("강철", [863, 878, 879, 884, 888]),
     ("페어리", [868, 869])]),
   (9,
    [("노말", [819, 820, 831, 832, 915, 916, 921, 922, 924, 925, 967, 968]),
     ("불꽃", [909, 910, 911, 935, 936, 937]),
     ("물", [912, 913, 914, 961, 962, 963, 964, 965]),
     ("전기", [921, 922, 940, 941]),
     ("풀", [906, 907, 908, 927, 928, 952, 953]),
     ("얼음", [974, 975, 996]),
     ("격투", [949, 950, 951, 973]),
     ("독", [927, 928, 944, 945]),
     ("땅", [967, 968, 984]),
     ("비행", [916, 917, 918, 919, 931, 962, 963, 964, 965, 973]),
     ("에스퍼", [976, 977, 978, 1001, 1002, 1003]),
     ("벌레", [919, 920, 946, 947, 948]),
     ("바위", [932, 933, 934]),
     ("고스트", [971, 972, 987, 988, 989, 999, 1000]),
     ("드래곤", [996, 997, 1007, 1008, 1009]),
     ("악", [923, 924, 925, 944, 945, 970, 983, 1005]),
     ("강철", [957, 958, 959, 960, 990]),
     ("페어리", [954, 955, 956, 985, 986, 1001, 1002, 1003])])]

/-- Method `getKnownPokemonByType(generation, type)`:
`pokemonData[generation]?.[type] || []`. -/
def getKnownPokemonByType (generation : Nat) (type : String) : List Nat :=
  match pokemonData.lookup generation with
  | some byType => (byType.lookup type).getD []
  | none => []

/-! ## `chatbot.js`: the strategic summary and the type-versus-type analysis -/

namespace JSNumber

/-- The comparison `x > 1` on doubles (`NaN` compares false). -/
def gtOne : JSNumber → Bool
  | zero => false
  | pow2 k => decide (0 < k)
  | infinity => true
  | nan => false

/-- The comparison `x < 1` on doubles (`NaN` compares false). -/
def ltOne : JSNumber → Bool
  | zero => true
  | pow2 k => decide (k < 0)
  | infinity => false
  | nan => false

end JSNumber

/-- The summary of line 716: the first type has the advantage. -/
def type1AdvantageText (type1 type2 : String) : String :=
  "🎯 **" ++
    type1 ++
    "가 유리**: " ++
    type1 ++
    " 타입이 " ++
    type2 ++
    " 타입을 효과적으로 공격할 수 있습니다."

/-- The summary of line 718: the second type has the advantage. -/
def type2AdvantageText (type1 type2 : String) : String :=
  "🎯 **" ++
    type2 ++
    "가 유리**: " ++
    type2 ++
    " 타입이 " ++
    type1 ++
    " 타입을 효과적으로 공격할 수 있습니다."

/-- The summary of line 720: both sides hit hard. -/
def mutualStrongText : String :=
  "⚡ **상호 강력**: 양쪽 모두 서로에게 강한 공격을 할 수 있어 치열한 배틀이 예상됩니다."

/-- The summary of line 722: both sides hit weakly. -/
def mutualWeakText : String :=
  "🛡️ **상호 약함**: 양쪽 모두 서로에게 약한 공격을 하므로 오래 지속되는 배틀이 될 것입니다."

/-- The summary of line 724: both sides exchange ordinary effects. -/
def balancedText : String :=
  "⚖️ **균형**: 양쪽 모두 평범한 효과를 주고받는 균형잡힌 배틀입니다."

/-- Method `getTypeVsTypeStrategy(type1, type2, multiplier1, multiplier2)`. -/
def getTypeVsTypeStrategy (type1 type2 : String) (multiplier1 multiplier2 : JSNumber) :
    String :=
  if multiplier1.gtOne && multiplier2.ltOne then type1AdvantageText type1 type2
  else if multiplier1.ltOne && multiplier2.gtOne then type2AdvantageText type1 type2
  else if multiplier1.gtOne && multiplier2.gtOne then mutualStrongText
  else if multiplier1.ltOne && multiplier2.ltOne then mutualWeakText
  else balancedText

/-- The values interpolated into the analysis template of
`handleTypeVsTypeEffectiveness` (lines 698-709); the rendered answer is that
fixed template filled with these fields. -/
structure TypeVsTypeReport where
  type1 : String
  type2 : String
  effectiveness1 : String
  multiplier1 : JSNumber
  effectiveness2 : String
  multiplier2 : JSNumber
  strategy : String
  deriving DecidableEq

/-- What `handleTypeVsTypeEffectiveness` returns: one of its two early
messages, or the analysis. -/
inductive TypeVsTypeAnswer where
  | message (text : String)
  | analysis (report : TypeVsTypeReport)
  deriving DecidableEq

/-- Method `handleTypeVsTypeEffectiveness({ type1, type2 })` (lines 674-712). -/
def handleTypeVsTypeEffectiveness (type1 type2 : String) : TypeVsTypeAnswer :=
  if type1.toList.isEmpty || type2.toList.isEmpty then
    .message ("❌ 타입 정보가 부족합니다: " ++ type1 ++ ", " ++ type2)
  else
    match convertKoreanToEnglishType type1, convertKoreanToEnglishType type2 with
    | some englishType1, some englishType2 =>
      let multiplier1 := calculateTypeEffectiveness englishType1 [englishType2]
      let multiplier2 := calculateTypeEffectiveness englishType2 [englishType1]
      .analysis ⟨type1, type2, getEffectivenessText multiplier1, multiplier1,
        getEffectivenessText multiplier2, multiplier2,
        getTypeVsTypeStrategy type1 type2 multiplier1 multiplier2⟩
    | _, _ => .message ("❌ 타입 정보를 찾을 수 없습니다: " ++ type1 ++ ", " ++ type2)

/-! ## `chatbot.js` and `pokemon-api.js`: the generation handlers

The species data provider is outside the sources' control, so it is a
parameter: `provider k id` is the outcome of the `k`-th call
`this.pokemonAPI.getPokemonById(id)` made by a handler (calls are counted from
0), either the formatted species or the message of the error thrown.  A handler
returns, with its text, the list of the ids it looked up, in call order. -/

/-- One element of the `types` array of a formatted species. -/
structure PokemonType where
  name : String
  koreanName : String
  deriving DecidableEq

/-- The fields of a formatted species that the handlers read; `types` is `none`
when the property is missing. -/
structure Pokemon where
  id : Nat
  name : String
  koreanName : String
  types : Option (List PokemonType)
  deriving DecidableEq

/-- The provider: outcome of the `k`-th lookup, made for the id `id`. -/
abbrev Provider := Nat → Nat → Except String Pokemon

/-- The state of a lookup loop: the ids looked up so far and the array
`pokemonList`. -/
structure ScanState where
  calls : List Nat
  pokemonList : List Pokemon
  deriving DecidableEq

/-- What a handler produces: the ids it looked up, in order, and the returned
text. -/
structure HandlerResult where
  calls : List Nat
  text : String
  deriving DecidableEq

/-- Method `PokemonAPI.getPokemonById(id)` (`pokemon-api.js`, lines 21-28) over
a transport: `transport k id` is the outcome of the request and of the
formatting of its response, an error carrying the message of the underlying
failure.  Every failure is rethrown as a new `Error` with a fixed message. -/
def getPokemonById (transport : Provider) : Provider :=
  fun k id =>
    match transport k id with
    | .ok pokemon => .ok pokemon
    | .error _ => .error ("ID " ++ Nat.repr id ++ "에 해당하는 포켓몬을 찾을 수 없습니다.")

/-- The ids visited by `for (let i = first; i <= last; i++)`. -/
def idsFromTo (first last : Nat) : List Nat :=
  List.range' first (last + 1 - first)

/-- The text that a template literal puts for the number `n`
(`Number::toString`).  A natural number below `2^53` is a double and prints as
its decimal numeral.  From `2^53` on, the value is rounded to a double and
printed with the shortest digits that identify that double, in exponent form
from `10^21` on (`2^60` prints as `1152921504606847000`, `10^21` as `1e+21`,
and past the largest double the text is `Infinity`); that text is the parameter
`bigNumberText`. -/
def numberToString (bigNumberText : Nat → String) (n : Nat) : String :=
  if n < 2 ^ 53 then Nat.repr n else bigNumberText n

/-- The text `❌ <generation>세대 정보를 찾을 수 없습니다.` of lines 546 and 584, where
the generation is whatever number the classifier passed on. -/
def unknownGenerationText (bigNumberText : Nat → String) (generation : Nat) : String :=
  "❌ " ++ numberToString bigNumberText generation ++ "세대 정보를 찾을 수 없습니다."

/-- The loop of `handleGenerationPokemon` (lines 551-558) over the ids still to
visit. -/
def rosterLoop (provider : Provider) : List Nat → ScanState → ScanState
  | [], st => st
  | i :: rest, st =>
    match provider st.calls.length i with
    | .ok pokemon => rosterLoop provider rest ⟨st.calls ++ [i], st.pokemonList ++ [pokemon]⟩
    | .error _ => rosterLoop provider rest ⟨st.calls ++ [i], st.pokemonList⟩

/-- The answer template of `handleGenerationPokemon` (lines 560-573). -/
def renderGenerationRoster (genInfo : GenerationInfo) (pokemonList : List Pokemon) :
    String :=
  let pokemonText := "\n".intercalate
    (pokemonList.map (fun p => "• " ++ p.koreanName ++ " (" ++ p.name ++ ")"))
  let totalCount := genInfo.stop - genInfo.start + 1
  "🌟 **" ++
    genInfo.name ++
    " 포켓몬들** (" ++
    genInfo.region ++
    ")\n\n📊 **기본 정보**\n• 포켓몬 번호: #" ++
    Nat.repr genInfo.start ++
    " ~ #" ++
    Nat.repr genInfo.stop ++
    "\n• 총 포켓몬 수: " ++
    Nat.repr totalCount ++
    "마리\n• 지역: " ++
    genInfo.region ++
    "\n\n🎮 **대표 포켓몬들**\n" ++
    pokemonText ++
    "\n\n💡 더 자세한 정보를 원하시면 특정 포켓몬 이름을 말씀해 주세요!"

/-- Method `handleGenerationPokemon({ generation })` (lines 541-574);
`bigNumberText` is the parameter of `numberToString`. -/
def handleGenerationPokemon (bigNumberText : Nat → String) (provider : Provider)
    (generation : Nat) : HandlerResult :=
  match POKEMON_GENERATIONS.lookup generation with
  | none => ⟨[], unknownGenerationText bigNumberText generation⟩
  | some genInfo =>
    let st := rosterLoop provider
      (idsFromTo genInfo.start (min (genInfo.start + 9) genInfo.stop)) ⟨[], []⟩
    ⟨st.calls, renderGenerationRoster genInfo st.pokemonList⟩

/-- The test `pokemon.types && pokemon.types.some(t => t.koreanName === type)`. -/
def hasType (pokemon : Pokemon) (type : String) : Bool :=
  match pokemon.types with
  | some types => types.any (fun t => t.koreanName == type)
  | none => false

/-- The loop over the known ids (lines 602-615): an id outside the generation's
range is skipped without a lookup. -/
def knownPass (provider : Provider) (type : String) (genInfo : GenerationInfo) :
    List Nat → ScanState → ScanState
  | [], st => st
  | pokemonId :: rest, st =>
    if genInfo.start ≤ pokemonId ∧ pokemonId ≤ genInfo.stop then
      match provider st.calls.length pokemonId with
      | .ok pokemon =>
        knownPass provider type genInfo rest
          ⟨st.calls ++ [pokemonId],
            if hasType pokemon type then st.pokemonList ++ [pokemon] else st.pokemonList⟩
      | .error _ =>
        knownPass provider type genInfo rest ⟨st.calls ++ [pokemonId], st.pokemonList⟩
    else knownPass provider type genInfo rest st

/-- The fallback scan (lines 627-643): a failure whose message contains
`timeout` or `ECONNRESET` ends the loop. -/
def rangeScan (provider : Provider) (type : String) : List Nat → ScanState → ScanState
  | [], st => st
  | i :: rest, st =>
    match provider st.calls.length i with
    | .ok pokemon =>
      rangeScan provider type rest
        ⟨st.calls ++ [i],
          if hasType pokemon type then st.pokemonList ++ [pokemon] else st.pokemonList⟩
    | .error message =>
      if includes message.toList "timeout" || includes message.toList "ECONNRESET" then
        ⟨st.calls ++ [i], st.pokemonList⟩
      else rangeScan provider type rest ⟨st.calls ++ [i], st.pokemonList⟩

/-- The lookups of `handleGenerationTypePokemon` (lines 590-644): the known ids
first, then the fallback scan if `pokemonList` is still empty. -/
def generationTypeScan (provider : Provider) (generation : Nat) (type : String)
    (genInfo : GenerationInfo) : ScanState :=
  let maxSearch := min genInfo.stop (genInfo.start + 20)
  let knownPokemon := getKnownPokemonByType generation type
  let afterKnown : ScanState :=
    if knownPokemon.length > 0 then knownPass provider type genInfo knownPokemon ⟨[], []⟩
    else ⟨[], []⟩
  if afterKnown.pokemonList.length = 0 then
    rangeScan provider type (idsFromTo genInfo.start maxSearch) afterKnown
  else afterKnown

/-- The text of line 649: no species of the type in the generation. -/
def noSuchTypeText (genInfo : GenerationInfo) (type : String) : String :=
  "❌ " ++ genInfo.name ++ "에는 " ++ type ++ " 타입 포켓몬이 없습니다."

/-- The answer template of `handleGenerationTypePokemon` (lines 652-667). -/
def renderGenerationTypeList (genInfo : GenerationInfo) (type : String)
    (pokemonList : List Pokemon) : String :=
  let pokemonText := "\n".intercalate
    (pokemonList.map (fun p =>
      let types := match p.types with
        | some ts => ", ".intercalate (ts.map (fun t => t.koreanName))
        | none => "알 수 없음"
      "• " ++ p.koreanName ++ " (" ++ p.name ++ ") - " ++ types))
  "🌟 **" ++
    genInfo.name ++
    " " ++
    type ++
    " 타입 포켓몬들** (" ++
    genInfo.region ++
    ")\n\n📊 **기본 정보**\n• 세대: " ++
    genInfo.name ++
    " (" ++
    genInfo.region ++
    ")\n• 타입: " ++
    type ++
    "\n• 총 포켓몬 수: " ++
    Nat.repr pokemonList.length ++
    "마리\n\n🎮 **포켓몬 목록**\n" ++
    pokemonText ++
    "\n\n💡 더 자세한 정보를 원하시면 특정 포켓몬 이름을 말씀해 주세요!"

/-- Method `handleGenerationTypePokemon({ generation, type })` (lines 576-672);
`bigNumberText` is the parameter of `numberToString`. -/
def handleGenerationTypePokemon (bigNumberText : Nat → String) (provider : Provider)
    (generation : Nat) (type : String) : HandlerResult :=
  match POKEMON_GENERATIONS.lookup generation with
  | none => ⟨[], unknownGenerationText bigNumberText generation⟩
  | some genInfo =>
    let st := generationTypeScan provider generation type genInfo
    if st.pokemonList.length = 0 then ⟨st.calls, noSuchTypeText genInfo type⟩
    else ⟨st.calls, renderGenerationTypeList genInfo type st.pokemonList⟩

/-- The type names an intent carries in its parameters, in order. -/
def Intent.typeNames : Intent → List String
  | .get_pokemon_by_type t => [t]
  | .get_generation_type_pokemon _ t => [t]
  | .get_type_vs_type_effectiveness t1 t2 => [t1, t2]
  | .get_type_effectiveness_info t => [t]
  | _ => []

/-! ## `chatbot.js`: `analyzeIntent` without its bare-integer rule -/

/-- The cascade of `classifyNormalized` with rule 3 (lines 123-133) removed;
everything else is as in the source. -/
def classifyNormalizedWithoutRule3 (T : NameTables) (input : Text) : Intent :=
  if quitKeyword input then .quit else
  match pokedexNumberRule input with
  | some r => r
  | none =>
  match numberSuffixRule input with
  | some r => r
  | none =>
  if effectivenessKeyword input then analyzeTypeEffectivenessQuery input else
  match analyzeComplexQuery input with
  | some complexQuery => complexQuery
  | none =>
  if generationKeyword input then analyzeGenerationQuery input else
  match truthyString (findPokemonType input false) with
  | some typeMatch => .get_pokemon_by_type typeMatch
  | none =>
  match truthyString (extractPokemonName T input) with
  | some pokemonName =>
    if statsKeyword input then .get_pokemon_stats pokemonName
    else .get_pokemon_info pokemonName
  | none =>
  match searchRule input with
  | some r => r
  | none =>
  if typeListKeyword input then .get_pokemon_types else .help

/-- The variant of `analyzeIntent` with the bare-integer rule removed. -/
def analyzeIntentWithoutRule3 (T : NameTables) (userInput : String) : Intent :=
  classifyNormalizedWithoutRule3 T (normalizeInput userInput)

/-! ## Rules 1-6 of the cascade -/

/-- C1: if the normalised input has no quit keyword, contains the marker `도감`
or `번호`, and its first digit run `ds` denotes a number between 1 and 1025,
then `analyzeIntent` returns `get_pokemon_info` with the canonical decimal
string of that number, whatever else the input contains; in particular
`도감번호 5` gives identifier `5`, not `get_generation_pokemon` 5. -/
theorem C1_marker_number_wins :
    (∀ (T : NameTables) (userInput : String) (ds : Text),
      quitKeyword (normalizeInput userInput) = false →
      (includes (normalizeInput userInput) "도감" = true ∨
        includes (normalizeInput userInput) "번호" = true) →
      matchFirstDigits (normalizeInput userInput) = some ds →
      1 ≤ parseInt ds → parseInt ds ≤ 1025 →
      analyzeIntent T userInput = .get_pokemon_info (Nat.repr (parseInt ds))) ∧
    (∀ T : NameTables,
      analyzeIntent T "도감번호 5" = .get_pokemon_info "5" ∧
      analyzeIntent T "도감번호 5" ≠ .get_generation_pokemon 5) := by
  have general : ∀ (T : NameTables) (userInput : String) (ds : Text),
      quitKeyword (normalizeInput userInput) = false →
      (includes (normalizeInput userInput) "도감" = true ∨
        includes (normalizeInput userInput) "번호" = true) →
      matchFirstDigits (normalizeInput userInput) = some ds →
      1 ≤ parseInt ds → parseInt ds ≤ 1025 →
      analyzeIntent T userInput = .get_pokemon_info (Nat.repr (parseInt ds)) := by
    intro T userInput ds hquit hmark hds hlo hhi
    have hm : (includes (normalizeInput userInput) "도감" ||
        includes (normalizeInput userInput) "번호") = true := by
      rcases hmark with h | h <;> simp [h]
    have h2 : pokedexNumberRule (normalizeInput userInput)
        = some (.get_pokemon_info (Nat.repr (parseInt ds))) := by
      unfold pokedexNumberRule
      rw [if_pos hm, hds]
      simp [pokedexIntent, hlo, hhi]
    unfold analyzeIntent classifyNormalized
    simp [hquit, h2]
  refine ⟨general, fun T => ?_⟩
  have h5 : analyzeIntent T "도감번호 5" = .get_pokemon_info "5" :=
    general T "도감번호 5" ['5'] (by decide) (Or.inl (by decide)) (by decide)
      (by decide) (by decide)
  exact ⟨h5, by rw [h5]; exact fun h => Intent.noConfusion h⟩

/-- Witness of C1 on an input that also carries a generation keyword and a
type name. -/
theorem C1_marker_number_wins_witness :
    quitKeyword (normalizeInput "5세대 불꽃 도감번호 7") = false ∧
    generationKeyword (normalizeInput "5세대 불꽃 도감번호 7") = true ∧
    findAllPokemonTypes (normalizeInput "5세대 불꽃 도감번호 7") = ["불꽃"] ∧
    analyzeIntent emptyTables "5세대 불꽃 도감번호 7" = .get_pokemon_info "5" :=
  ⟨by decide, by decide, by decide,
    C1_marker_number_wins.1 emptyTables "5세대 불꽃 도감번호 7" ['5'] (by decide)
      (Or.inl (by decide)) (by decide) (by decide) (by decide)⟩

/-- C2, as stated, fails: `1세대 불꽃 물 상성` passes rules 1-4, yields
generation 1 and names two types, yet the effectiveness keyword `상성` sends it
to `get_type_vs_type_effectiveness`. -/
theorem C2_counterexample :
    quitKeyword (normalizeInput "1세대 불꽃 물 상성") = false ∧
    pokedexNumberRule (normalizeInput "1세대 불꽃 물 상성") = none ∧
    directNumberRule (normalizeInput "1세대 불꽃 물 상성") = none ∧
    numberSuffixRule (normalizeInput "1세대 불꽃 물 상성") = none ∧
    extractGeneration (normalizeInput "1세대 불꽃 물 상성") = some 1 ∧
    findAllPokemonTypes (normalizeInput "1세대 불꽃 물 상성") = ["불꽃", "물"] ∧
    effectivenessKeyword (normalizeInput "1세대 불꽃 물 상성") = true ∧
    analyzeIntent emptyTables "1세대 불꽃 물 상성"
      = .get_type_vs_type_effectiveness "불꽃" "물" ∧
    analyzeIntent emptyTables "1세대 불꽃 물 상성"
      ≠ .get_generation_type_pokemon 1 "불꽃" := by
  decide

/-- C2, amended: past rules 1-4, when the input has no effectiveness keyword,
`extractGeneration` yields a non-zero generation and at least two types are
named, the answer is `get_generation_type_pokemon` with that generation and the
first found type; when the input has an effectiveness keyword and names at
least two types, the answer is `get_type_vs_type_effectiveness` with the first
two found types. -/
theorem C2_generation_type_without_keyword (T : NameTables) (userInput : String)
    (t1 t2 : String) (rest : List String)
    (hquit : quitKeyword (normalizeInput userInput) = false)
    (h2 : pokedexNumberRule (normalizeInput userInput) = none)
    (h3 : directNumberRule (normalizeInput userInput) = none)
    (h4 : numberSuffixRule (normalizeInput userInput) = none)
    (htypes : findAllPokemonTypes (normalizeInput userInput) = t1 :: t2 :: rest) :
    (∀ g : Nat, effectivenessKeyword (normalizeInput userInput) = false →
      extractGeneration (normalizeInput userInput) = some g → g ≠ 0 →
      analyzeIntent T userInput = .get_generation_type_pokemon g t1) ∧
    (effectivenessKeyword (normalizeInput userInput) = true →
      analyzeIntent T userInput = .get_type_vs_type_effectiveness t1 t2) := by
  constructor
  · intro g hkw hgen hg
    have h6 : analyzeComplexQuery (normalizeInput userInput)
        = some (.get_generation_type_pokemon g t1) := by
      simp [analyzeComplexQuery, hgen, truthyNumber, hg, htypes]
    unfold analyzeIntent classifyNormalized
    simp [hquit, h2, h3, h4, hkw, h6]
  · intro hkw
    unfold analyzeIntent classifyNormalized
    simp [hquit, h2, h3, h4, hkw, analyzeTypeEffectivenessQuery, htypes]

/-- Witness of the amended C2: `1세대 불꽃 물` and `1세대 불꽃 물 상성`. -/
theorem C2_generation_type_without_keyword_witness :
    analyzeIntent emptyTables "1세대 불꽃 물" = .get_generation_type_pokemon 1 "불꽃" ∧
    analyzeIntent emptyTables "1세대 불꽃 물 상성"
      = .get_type_vs_type_effectiveness "불꽃" "물" :=
  ⟨(C2_generation_type_without_keyword emptyTables "1세대 불꽃 물" "불꽃" "물" []
      (by decide) (by decide) (by decide) (by decide) (by decide)).1 1
      (by decide) (by decide) (by decide),
   (C2_generation_type_without_keyword emptyTables "1세대 불꽃 물 상성" "불꽃" "물" []
      (by decide) (by decide) (by decide) (by decide) (by decide)).2 (by decide)⟩

/-- C3, as stated, fails: on the help text's example `전기와 물 타입 상성 알려줘`
the first type is not `전기`. -/
theorem C3_counterexample :
    analyzeIntent emptyTables "전기와 물 타입 상성 알려줘"
      ≠ .get_type_vs_type_effectiveness "전기" "물" := by
  decide

/-- C3, amended: on `전기와 물 타입 상성 알려줘`, `analyzeIntent` returns
`get_type_vs_type_effectiveness` with `type1 = 물` and `type2 = 전기`: the two
types come in the enumeration order of `POKEMON_TYPES`, not in text order. -/
theorem C3_electric_water_in_table_order (T : NameTables) :
    findAllPokemonTypes (normalizeInput "전기와 물 타입 상성 알려줘") = ["물", "전기"] ∧
    analyzeIntent T "전기와 물 타입 상성 알려줘"
      = .get_type_vs_type_effectiveness "물" "전기" := by
  have hq : quitKeyword (normalizeInput "전기와 물 타입 상성 알려줘") = false := by decide
  have h2 : pokedexNumberRule (normalizeInput "전기와 물 타입 상성 알려줘") = none := by
    decide
  have h3 : directNumberRule (normalizeInput "전기와 물 타입 상성 알려줘") = none := by
    decide
  have h4 : numberSuffixRule (normalizeInput "전기와 물 타입 상성 알려줘") = none := by
    decide
  have hk : effectivenessKeyword (normalizeInput "전기와 물 타입 상성 알려줘") = true := by
    decide
  have ht : analyzeTypeEffectivenessQuery (normalizeInput "전기와 물 타입 상성 알려줘")
      = .get_type_vs_type_effectiveness "물" "전기" := by decide
  refine ⟨by decide, ?_⟩
  unfold analyzeIntent classifyNormalized
  simp [hq, h2, h3, h4, hk, ht]

/-- C4: past rules 1-4, an input with an effectiveness keyword is answered by
the type-effectiveness sub-classifier alone, whatever the name tables hold:
`get_type_vs_type_effectiveness` with the first two elements of
`findAllPokemonTypes` when there are at least two, `get_type_effectiveness_info`
with the type when there is exactly one, `help` when there is none. -/
theorem C4_effectiveness_keyword (T : NameTables) (userInput : String)
    (hquit : quitKeyword (normalizeInput userInput) = false)
    (h2 : pokedexNumberRule (normalizeInput userInput) = none)
    (h3 : directNumberRule (normalizeInput userInput) = none)
    (h4 : numberSuffixRule (normalizeInput userInput) = none)
    (hkw : effectivenessKeyword (normalizeInput userInput) = true) :
    analyzeIntent T userInput = analyzeTypeEffectivenessQuery (normalizeInput userInput) ∧
    (∀ (t1 t2 : String) (rest : List String),
      findAllPokemonTypes (normalizeInput userInput) = t1 :: t2 :: rest →
      analyzeIntent T userInput = .get_type_vs_type_effectiveness t1 t2) ∧
    (∀ t : String, findAllPokemonTypes (normalizeInput userInput) = [t] →
      analyzeIntent T userInput = .get_type_effectiveness_info t) ∧
    (findAllPokemonTypes (normalizeInput userInput) = [] →
      analyzeIntent T userInput = .help) := by
  have key : analyzeIntent T userInput
      = analyzeTypeEffectivenessQuery (normalizeInput userInput) := by
    unfold analyzeIntent classifyNormalized
    simp [hquit, h2, h3, h4, hkw]
  refine ⟨key, ?_, ?_, ?_⟩
  · intro t1 t2 rest h
    rw [key]; simp [analyzeTypeEffectivenessQuery, h]
  · intro t h
    rw [key]; simp [analyzeTypeEffectivenessQuery, h]
  · intro h
    rw [key]; simp [analyzeTypeEffectivenessQuery, h]

/-- Witness of C4: `불꽃 약점` names the single type `불꽃`. -/
theorem C4_effectiveness_keyword_witness :
    findAllPokemonTypes (normalizeInput "불꽃 약점") = ["불꽃"] ∧
    analyzeIntent emptyTables "불꽃 약점" = .get_type_effectiveness_info "불꽃" :=
  ⟨by decide,
    (C4_effectiveness_keyword emptyTables "불꽃 약점" (by decide) (by decide) (by decide)
      (by decide) (by decide)).2.2.1 "불꽃" (by decide)⟩

/-- C5, as stated, fails: `0세대 불꽃` passes rules 1-5, `extractGeneration`
yields the number 0 and one type is named, yet the answer is `help`. -/
theorem C5_counterexample :
    quitKeyword (normalizeInput "0세대 불꽃") = false ∧
    pokedexNumberRule (normalizeInput "0세대 불꽃") = none ∧
    directNumberRule (normalizeInput "0세대 불꽃") = none ∧
    numberSuffixRule (normalizeInput "0세대 불꽃") = none ∧
    effectivenessKeyword (normalizeInput "0세대 불꽃") = false ∧
    extractGeneration (normalizeInput "0세대 불꽃") = some 0 ∧
    findAllPokemonTypes (normalizeInput "0세대 불꽃") = ["불꽃"] ∧
    analyzeIntent emptyTables "0세대 불꽃" = .help ∧
    analyzeIntent emptyTables "0세대 불꽃" ≠ .get_generation_type_pokemon 0 "불꽃" := by
  decide

/-- C5, amended: past rules 1-5, if `extractGeneration` yields a non-zero
generation `g` and at least one type is named, the answer is
`get_generation_type_pokemon` with `g` and the first found type; if it yields
nothing and at least two types are named, the answer is
`get_type_vs_type_effectiveness` with the first two found types. -/
theorem C5_complex_query (T : NameTables) (userInput : String)
    (hquit : quitKeyword (normalizeInput userInput) = false)
    (h2 : pokedexNumberRule (normalizeInput userInput) = none)
    (h3 : directNumberRule (normalizeInput userInput) = none)
    (h4 : numberSuffixRule (normalizeInput userInput) = none)
    (hkw : effectivenessKeyword (normalizeInput userInput) = false) :
    (∀ (g : Nat) (t : String) (rest : List String),
      extractGeneration (normalizeInput userInput) = some g → g ≠ 0 →
      findAllPokemonTypes (normalizeInput userInput) = t :: rest →
      analyzeIntent T userInput = .get_generation_type_pokemon g t) ∧
    (∀ (t1 t2 : String) (rest : List String),
      extractGeneration (normalizeInput userInput) = none →
      findAllPokemonTypes (normalizeInput userInput) = t1 :: t2 :: rest →
      analyzeIntent T userInput = .get_type_vs_type_effectiveness t1 t2) := by
  constructor
  · intro g t rest hgen hg htypes
    have h6 : analyzeComplexQuery (normalizeInput userInput)
        = some (.get_generation_type_pokemon g t) := by
      simp [analyzeComplexQuery, hgen, truthyNumber, hg, htypes]
    unfold analyzeIntent classifyNormalized
    simp [hquit, h2, h3, h4, hkw, h6]
  · intro t1 t2 rest hgen htypes
    have h6 : analyzeComplexQuery (normalizeInput userInput)
        = some (.get_type_vs_type_effectiveness t1 t2) := by
      simp [analyzeComplexQuery, hgen, truthyNumber, htypes]
    unfold analyzeIntent classifyNormalized
    simp [hquit, h2, h3, h4, hkw, h6]

/-- Witness of the amended C5: `1세대 드래곤 타입 포켓몬 알려줘` gives generation
1 with type `드래곤`, and `불꽃 물 타입` gives the two types. -/
theorem C5_complex_query_witness :
    analyzeIntent emptyTables "1세대 드래곤 타입 포켓몬 알려줘"
      = .get_generation_type_pokemon 1 "드래곤" ∧
    analyzeIntent emptyTables "불꽃 물 타입" = .get_type_vs_type_effectiveness "불꽃" "물" :=
  ⟨(C5_complex_query emptyTables "1세대 드래곤 타입 포켓몬 알려줘" (by decide) (by decide)
      (by decide) (by decide) (by decide)).1 1 "드래곤" [] (by decide) (by decide)
      (by decide),
   (C5_complex_query emptyTables "불꽃 물 타입" (by decide) (by decide) (by decide)
      (by decide) (by decide)).2 "불꽃" "물" [] (by decide) (by decide)⟩

/-! ## Substring facts shared by the later rules -/

/-- Substring test against the suffix relation: `includes` holds as soon as the
pattern is a prefix of a suffix of the text. -/
theorem includes_of_prefix_of_suffix {s t : Text} {pat : String}
    (hp : pat.toList.isPrefixOf t = true) (ht : t <:+ s) : includes s pat = true := by
  unfold includes
  rw [List.any_eq_true]
  exact ⟨t, (List.mem_tails t s).2 ht, hp⟩

/-- A pattern that occurs in a text has all its characters in the text. -/
theorem mem_of_includes {s : Text} {pat : String} (h : includes s pat = true)
    {c : Char} (hc : c ∈ pat.toList) : c ∈ s := by
  unfold includes at h
  rw [List.any_eq_true] at h
  obtain ⟨t, ht, hp⟩ := h
  have hpre : pat.toList <+: t := List.isPrefixOf_iff_prefix.1 hp
  exact ((List.mem_tails t s).1 ht).subset (hpre.subset hc)

/-- A pattern with a character foreign to the text does not occur in it. -/
theorem includes_eq_false_of_foreign {s : Text} {allowed : List Char}
    (hs : ∀ c ∈ s, c ∈ allowed) (pat : String)
    (hp : pat.toList.any (fun c => !(allowed.contains c)) = true) :
    includes s pat = false := by
  by_contra h
  have h1 : includes s pat = true := by simpa using h
  rw [List.any_eq_true] at hp
  obtain ⟨c, hc, hnot⟩ := hp
  have : c ∈ allowed := hs c (mem_of_includes h1 hc)
  simp [this] at hnot

/-- Without the keyword `세대` in the text, the numeric generation pattern does
not match. -/
theorem matchGenerationNumber_eq_none {input : Text}
    (h : includes input "세대" = false) : matchGenerationNumber input = none := by
  unfold matchGenerationNumber
  rw [List.findSome?_eq_none_iff]
  intro t ht
  have hsuf : t.dropWhile isDigit <:+ input :=
    (List.dropWhile_suffix isDigit).trans ((List.mem_tails t input).1 ht)
  by_cases hp : "세대".toList.isPrefixOf (t.dropWhile isDigit) = true
  · rw [includes_of_prefix_of_suffix hp hsuf] at h
    exact absurd h (by decide)
  · have hf : "세대".toList.isPrefixOf (t.dropWhile isDigit) = false :=
      Bool.eq_false_iff.2 hp
    simp only [hf, Bool.and_false, Bool.false_eq_true, if_false]

/-- Without any generation keyword in the text, `extractGeneration` finds
nothing. -/
theorem extractGeneration_eq_none_of_no_keyword {input : Text}
    (h : generationKeyword input = false) : extractGeneration input = none := by
  simp only [generationKeyword, Bool.or_eq_false_iff] at h
  obtain ⟨⟨⟨⟨⟨⟨⟨⟨⟨⟨⟨⟨⟨⟨⟨⟨⟨⟨h0, -⟩, -⟩, -⟩, -⟩, -⟩, -⟩, -⟩, -⟩, -⟩, r1⟩, r2⟩, r3⟩, r4⟩, r5⟩,
    r6⟩, r7⟩, r8⟩, r9⟩ := h
  have hreg : matchRegion input = none := by
    unfold matchRegion
    rw [List.findSome?_eq_none_iff]
    intro t ht
    rw [List.find?_eq_none]
    intro r hr hp
    have hinc : includes input r = true :=
      includes_of_prefix_of_suffix hp ((List.mem_tails t input).1 ht)
    simp only [List.mem_cons, List.mem_singleton, List.not_mem_nil, or_false] at hr
    rcases hr with rfl | rfl | rfl | rfl | rfl | rfl | rfl | rfl | rfl <;> simp_all
  unfold extractGeneration
  rw [matchGenerationNumber_eq_none h0, hreg]

/-! ## Bare catalogue numbers (rules 3 and 4) -/

/-- A digit is one of the bare-number characters. -/
theorem digit_mem_bareNumberChars {c : Char} (h : isDigit c = true) :
    c ∈ bareNumberChars := by
  have hb : 48 ≤ c.toNat ∧ c.toNat ≤ 57 := by
    simp only [isDigit, Char.isDigit, Bool.and_eq_true, decide_eq_true_eq] at h
    exact ⟨h.1, h.2⟩
  rw [← Char.ofNat_toNat c]
  obtain ⟨h1, h2⟩ := hb
  generalize c.toNat = n at h1 h2
  interval_cases n <;> decide

/-- Lowering and white-space tests leave the bare-number characters alone. -/
theorem bareNumberChars_inert :
    ∀ c ∈ bareNumberChars, Char.toLower c = c ∧ isWhiteSpace c = false := by
  decide

/-- Trimming does nothing to a text without white space. -/
theorem trim_eq_self {s : Text} (h : ∀ c ∈ s, isWhiteSpace c = false) : trim s = s := by
  have drop_id : ∀ l : Text, (∀ c ∈ l, isWhiteSpace c = false) →
      l.dropWhile isWhiteSpace = l := by
    intro l hl
    cases l with
    | nil => rfl
    | cons a l => exact List.dropWhile_cons_of_neg (by simp [hl a (List.mem_cons_self a l)])
  unfold trim
  rw [drop_id s h, drop_id s.reverse (fun c hc => h c (List.mem_reverse.1 hc)),
    List.reverse_reverse]

/-- Normalisation does nothing to a bare-number text. -/
theorem normalizeInput_bareNumber {s : Text} (hs : ∀ c ∈ s, c ∈ bareNumberChars) :
    normalizeInput (String.mk s) = s := by
  have hlow : toLowerCase s = s := by
    unfold toLowerCase
    conv_rhs => rw [← List.map_id s]
    exact List.map_congr_left (fun c hc => (bareNumberChars_inert c (hs c hc)).1)
  show trim (toLowerCase s) = s
  rw [hlow]
  exact trim_eq_self (fun c hc => (bareNumberChars_inert c (hs c hc)).2)

/-- Rules 1 and 2 do not fire on a bare-number text. -/
theorem bareNumber_first_rules {s : Text} (hs : ∀ c ∈ s, c ∈ bareNumberChars) :
    quitKeyword s = false ∧ pokedexNumberRule s = none := by
  have inc := fun (pat : String) hp =>
    includes_eq_false_of_foreign hs pat hp
  constructor
  · simp only [quitKeyword, inc "quit" (by decide), inc "exit" (by decide),
      inc "종료" (by decide), Bool.or_self]
  · simp only [pokedexNumberRule, inc "도감" (by decide), inc "번호" (by decide),
      Bool.or_self, Bool.false_eq_true, if_false]

/-- On a non-empty bare-number text, no rule other than rules 3, 4 and 9 can
fire: without them the cascade ends in `help`. -/
theorem classifyNormalized_bareNumber (T : NameTables) {s : Text}
    (hs : ∀ c ∈ s, c ∈ bareNumberChars) (hne : s ≠ [])
    (h3 : directNumberRule s = none) (h4 : numberSuffixRule s = none)
    (hname : extractPokemonName T s = none) : classifyNormalized T s = .help := by
  have inc := fun (pat : String) hp =>
    includes_eq_false_of_foreign hs pat hp
  obtain ⟨hquit, h2⟩ := bareNumber_first_rules hs
  have hkw : effectivenessKeyword s = false := by
    simp only [effectivenessKeyword, inc "상성" (by decide), inc "효과" (by decide),
      inc "약점" (by decide), inc "강점" (by decide), Bool.or_self]
  have hgk : generationKeyword s = false := by
    simp only [generationKeyword, inc "세대" (by decide), inc "1세대" (by decide),
      inc "2세대" (by decide), inc "3세대" (by decide), inc "4세대" (by decide),
      inc "5세대" (by decide), inc "6세대" (by decide), inc "7세대" (by decide),
      inc "8세대" (by decide), inc "9세대" (by decide), inc "관동" (by decide),
      inc "성도" (by decide), inc "호연" (by decide), inc "신오" (by decide),
      inc "하나" (by decide), inc "칼로스" (by decide), inc "알로라" (by decide),
      inc "가라르" (by decide), inc "팔데아" (by decide), Bool.or_self]
  have hfilter : (POKEMON_TYPES.map Prod.fst).filter
      (fun koreanType => !koreanType.toList.isEmpty && includes s koreanType) = [] := by
    rw [List.filter_eq_nil_iff]
    intro k hk
    have hall : ∀ k ∈ POKEMON_TYPES.map Prod.fst,
        k.toList.any (fun c => !(bareNumberChars.contains c)) = true := by decide
    simp [inc k (hall k hk)]
  have hempty : s.isEmpty = false := by
    cases s with
    | nil => exact absurd rfl hne
    | cons a l => rfl
  have htypes : findAllPokemonTypes s = [] := by
    unfold findAllPokemonTypes
    rw [hempty, hfilter]; rfl
  have h8 : findPokemonType s false = none := by
    unfold findPokemonType
    rw [hempty]
    simp only [hfilter]
    rfl
  have h6 : analyzeComplexQuery s = none := by
    simp [analyzeComplexQuery, extractGeneration_eq_none_of_no_keyword hgk, truthyNumber,
      htypes]
  have h10 : searchRule s = none := by
    simp only [searchRule, inc "찾" (by decide), inc "검색" (by decide),
      inc "어떤" (by decide), inc "포켓몬이" (by decide), Bool.or_self,
      Bool.false_eq_true, if_false]
  have h11 : typeListKeyword s = false := by
    simp only [typeListKeyword, inc "타입" (by decide), inc "어떤 타입들이" (by decide),
      Bool.false_and, Bool.or_self]
  unfold classifyNormalized
  simp [hquit, h2, h3, h4, hkw, h6, hgk, h8, hname, truthyString, h10, h11]
/-- The digit-run tests on a digit text `d` and on `d` followed by `번`. -/
theorem number_rules_on_digits {d : Text} (hd : d ≠ []) (hdig : ∀ c ∈ d, isDigit c = true) :
    directNumberRule d = pokedexIntent (parseInt d) ∧
    numberSuffixRule d = pokedexIntent (parseInt d) ∧
    directNumberRule (d ++ ['번']) = none ∧
    numberSuffixRule (d ++ ['번']) = pokedexIntent (parseInt d) := by
  have hplain : ∀ c ∈ d, isWhiteSpace c = false := fun c hc =>
    (bareNumberChars_inert c (digit_mem_bareNumberChars (hdig c hc))).2
  have hplain2 : ∀ c ∈ d ++ ['번'], isWhiteSpace c = false := by
    intro c hc
    rcases List.mem_append.1 hc with h | h
    · exact hplain c h
    · rw [List.mem_singleton.1 h]; decide
  have hempty : d.isEmpty = false := by
    cases d with
    | nil => exact absurd rfl hd
    | cons a l => rfl
  have hall : d.all isDigit = true := List.all_eq_true.2 hdig
  have htake : d.takeWhile isDigit = d := by
    have := @List.takeWhile_append_of_pos _ isDigit d [] hdig
    simpa using this
  have hdrop : d.dropWhile isDigit = [] := by
    have := @List.dropWhile_append_of_pos _ isDigit d [] hdig
    simpa using this
  have htake2 : (d ++ ['번']).takeWhile isDigit = d := by
    rw [List.takeWhile_append_of_pos hdig]
    have : ['번'].takeWhile isDigit = [] := by decide
    rw [this, List.append_nil]
  have hdrop2 : (d ++ ['번']).dropWhile isDigit = ['번'] := by
    rw [List.dropWhile_append_of_pos hdig]
    decide
  refine ⟨?_, ?_, ?_, ?_⟩
  · unfold directNumberRule isAllDigits
    rw [trim_eq_self hplain, hempty, hall]; rfl
  · unfold numberSuffixRule matchNumberOnly
    simp only [htake, hdrop, hempty]; rfl
  · unfold directNumberRule isAllDigits
    rw [trim_eq_self hplain2, List.all_append]
    have : ['번'].all isDigit = false := by decide
    rw [this]; simp
  · unfold numberSuffixRule matchNumberOnly
    simp only [htake2, hdrop2, hempty]; rfl

/-- C6: for a non-empty digit string `d` denoting `n`, on the input `d` and on
`d` followed by `번`, `analyzeIntent` returns `get_pokemon_info` with the
canonical decimal string of `n` when `1 ≤ n ≤ 1025`; when the species-name
extractor finds nothing in the input, it does so only then, and returns
`help` otherwise. -/
theorem C6_bare_number (T : NameTables) (d : Text) (userInput : String)
    (hd : d ≠ []) (hdig : ∀ c ∈ d, isDigit c = true)
    (hin : userInput = String.mk d ∨ userInput = String.mk (d ++ ['번'])) :
    ((1 ≤ parseInt d ∧ parseInt d ≤ 1025) →
      analyzeIntent T userInput = .get_pokemon_info (Nat.repr (parseInt d))) ∧
    (extractPokemonName T (normalizeInput userInput) = none →
      ((analyzeIntent T userInput = .get_pokemon_info (Nat.repr (parseInt d)) ↔
          (1 ≤ parseInt d ∧ parseInt d ≤ 1025)) ∧
        (¬ (1 ≤ parseInt d ∧ parseInt d ≤ 1025) → analyzeIntent T userInput = .help))) := by
  have hbare : ∀ c ∈ d, c ∈ bareNumberChars := fun c hc =>
    digit_mem_bareNumberChars (hdig c hc)
  have hbare2 : ∀ c ∈ d ++ ['번'], c ∈ bareNumberChars := by
    intro c hc
    rcases List.mem_append.1 hc with h | h
    · exact hbare c h
    · rw [List.mem_singleton.1 h]; decide
  obtain ⟨r3, r4, r3s, r4s⟩ := number_rules_on_digits hd hdig
  -- the normalised input `s`, with what rules 3 and 4 make of it
  obtain ⟨s, hs, hne, hnorm, hrules⟩ : ∃ s : Text, (∀ c ∈ s, c ∈ bareNumberChars) ∧ s ≠ [] ∧
      normalizeInput userInput = s ∧
      ((directNumberRule s = pokedexIntent (parseInt d) ∧
          numberSuffixRule s = pokedexIntent (parseInt d)) ∨
        (directNumberRule s = none ∧ numberSuffixRule s = pokedexIntent (parseInt d))) := by
    rcases hin with h | h
    · exact ⟨d, hbare, hd, by rw [h]; exact normalizeInput_bareNumber hbare,
        Or.inl ⟨r3, r4⟩⟩
    · exact ⟨d ++ ['번'], hbare2, by simp, by rw [h]; exact normalizeInput_bareNumber hbare2,
        Or.inr ⟨r3s, r4s⟩⟩
  obtain ⟨hquit, h2⟩ := bareNumber_first_rules hs
  have inRange : (1 ≤ parseInt d ∧ parseInt d ≤ 1025) →
      analyzeIntent T userInput = .get_pokemon_info (Nat.repr (parseInt d)) := by
    intro hr
    have hp : pokedexIntent (parseInt d)
        = some (.get_pokemon_info (Nat.repr (parseInt d))) := by
      simp [pokedexIntent, hr]
    unfold analyzeIntent classifyNormalized
    rw [hnorm]
    rcases hrules with ⟨h3, -⟩ | ⟨h3, h4⟩
    · simp [hquit, h2, h3, hp]
    · simp [hquit, h2, h3, h4, hp]
  have outRange : extractPokemonName T (normalizeInput userInput) = none →
      ¬ (1 ≤ parseInt d ∧ parseInt d ≤ 1025) → analyzeIntent T userInput = .help := by
    intro hname hr
    have hp : pokedexIntent (parseInt d) = none := by
      simp only [pokedexIntent, hr, if_false]
    rw [hnorm] at hname
    show classifyNormalized T (normalizeInput userInput) = .help
    rw [hnorm]
    rcases hrules with ⟨h3, h4⟩ | ⟨h3, h4⟩
    · exact classifyNormalized_bareNumber T hs hne (h3.trans hp) (h4.trans hp) hname
    · exact classifyNormalized_bareNumber T hs hne h3 (h4.trans hp) hname
  refine ⟨inRange, fun hname => ⟨⟨fun h => ?_, inRange⟩, outRange hname⟩⟩
  by_contra hr
  rw [outRange hname hr] at h
  exact Intent.noConfusion h

/-- Witness of C6: `150` and `150번` give identifier `150`; `1200` gives `help`. -/
theorem C6_bare_number_witness :
    analyzeIntent emptyTables "150" = .get_pokemon_info "150" ∧
    analyzeIntent emptyTables "150번" = .get_pokemon_info "150" ∧
    analyzeIntent emptyTables "1200" = .help :=
  ⟨(C6_bare_number emptyTables "150".toList "150" (by decide) (by decide)
      (Or.inl rfl)).1 (by decide),
   (C6_bare_number emptyTables "150".toList "150번" (by decide) (by decide)
      (Or.inr rfl)).1 (by decide),
   ((C6_bare_number emptyTables "1200".toList "1200" (by decide) (by decide)
      (Or.inl rfl)).2 (by decide)).2 (by decide)⟩

/-! ## The single-type rule (rule 8) -/

/-- The first-type lookup is the head of the all-types lookup. -/
theorem findPokemonType_eq_head (input : Text) :
    findPokemonType input false = (findAllPokemonTypes input).head? := by
  unfold findPokemonType findAllPokemonTypes
  by_cases he : input.isEmpty = true
  · simp [he]
  · simp only [he, if_false, Bool.false_and, Bool.false_eq_true]
    cases (POKEMON_TYPES.map Prod.fst).filter
      (fun koreanType => !koreanType.toList.isEmpty && includes input koreanType) with
    | nil => rfl
    | cons a l => simp

/-- Every key of `POKEMON_TYPES` is a non-empty string. -/
theorem POKEMON_TYPES_keys_nonempty :
    ∀ k ∈ POKEMON_TYPES.map Prod.fst, k.toList.isEmpty = false := by
  decide

/-- The types found are exactly the table keys that occur in the text. -/
theorem mem_findAllPokemonTypes {input : Text} {k : String} :
    k ∈ findAllPokemonTypes input ↔
      k ∈ POKEMON_TYPES.map Prod.fst ∧ includes input k = true := by
  unfold findAllPokemonTypes
  by_cases he : input.isEmpty = true
  · have hnil : input = [] := List.isEmpty_iff.1 he
    subst hnil
    simp only [List.isEmpty_nil, if_true, List.not_mem_nil, false_iff, not_and]
    intro hk hinc
    have hne := POKEMON_TYPES_keys_nonempty k hk
    cases hkl : k.toList with
    | nil => rw [hkl] at hne; exact absurd hne (by decide)
    | cons c l =>
      have : c ∈ ([] : Text) := mem_of_includes hinc (by rw [hkl]; exact List.mem_cons_self c l)
      exact absurd this (List.not_mem_nil c)
  · simp only [he, if_false, Bool.false_eq_true, List.mem_filter, Bool.and_eq_true,
      Bool.not_eq_true']
    constructor
    · exact fun h => ⟨h.1, h.2.2⟩
    · exact fun h => ⟨h.1, POKEMON_TYPES_keys_nonempty k h.1, h.2⟩

/-- The catalogue-number rules only ever return `get_pokemon_info`. -/
theorem pokedexIntent_ne_by_type {n : Nat} {r : Intent} (h : pokedexIntent n = some r)
    (t : String) : r ≠ .get_pokemon_by_type t := by
  unfold pokedexIntent at h
  split at h
  · cases h; exact fun h => Intent.noConfusion h
  · cases h

/-- Rules 2, 3 and 4 never return `get_pokemon_by_type`. -/
theorem number_rules_ne_by_type (input : Text) (r : Intent) (t : String) :
    (pokedexNumberRule input = some r → r ≠ .get_pokemon_by_type t) ∧
    (directNumberRule input = some r → r ≠ .get_pokemon_by_type t) ∧
    (numberSuffixRule input = some r → r ≠ .get_pokemon_by_type t) := by
  refine ⟨fun h => ?_, fun h => ?_, fun h => ?_⟩
  · unfold pokedexNumberRule at h
    split at h
    · split at h
      · exact pokedexIntent_ne_by_type h t
      · cases h
    · cases h
  · unfold directNumberRule at h
    split at h
    · exact pokedexIntent_ne_by_type h t
    · cases h
  · unfold numberSuffixRule at h
    split at h
    · exact pokedexIntent_ne_by_type h t
    · cases h

/-- Rules 5, 6, 7 and 10 never return `get_pokemon_by_type`. -/
theorem sub_classifiers_ne_by_type (input : Text) (r : Intent) (t : String) :
    analyzeTypeEffectivenessQuery input ≠ .get_pokemon_by_type t ∧
    (analyzeComplexQuery input = some r → r ≠ .get_pokemon_by_type t) ∧
    analyzeGenerationQuery input ≠ .get_pokemon_by_type t ∧
    (searchRule input = some r → r ≠ .get_pokemon_by_type t) := by
  refine ⟨?_, fun h => ?_, ?_, fun h => ?_⟩
  · unfold analyzeTypeEffectivenessQuery
    split <;> exact fun h => Intent.noConfusion h
  · unfold analyzeComplexQuery at h
    simp only at h
    split at h
    · cases h; exact fun h => Intent.noConfusion h
    · cases h; exact fun h => Intent.noConfusion h
    · cases h
  · unfold analyzeGenerationQuery
    split <;> exact fun h => Intent.noConfusion h
  · unfold searchRule at h
    split at h
    · split at h
      · cases h; exact fun h => Intent.noConfusion h
      · cases h
    · cases h

/-- When the complex-query rule does not fire although a type is named, the
generation is falsy and exactly one type is named. -/
theorem single_type_of_complex_none {input : Text} {t : String}
    (h6 : analyzeComplexQuery input = none) (ht : t ∈ findAllPokemonTypes input) :
    findAllPokemonTypes input = [t] := by
  unfold analyzeComplexQuery at h6
  cases hg : truthyNumber (extractGeneration input) with
  | some g =>
    cases hl : findAllPokemonTypes input with
    | nil => rw [hl] at ht; exact absurd ht (List.not_mem_nil t)
    | cons a l => simp [hg, hl] at h6
  | none =>
    cases hl : findAllPokemonTypes input with
    | nil => rw [hl] at ht; exact absurd ht (List.not_mem_nil t)
    | cons a l =>
      cases l with
      | nil =>
        rw [hl] at ht
        rw [List.mem_singleton.1 ht]
      | cons b l => simp [hg, hl] at h6

/-- An answer `get_pokemon_by_type` can only come from rule 8: rules 6 and 7
did not fire and the first-type lookup gave the type. -/
theorem classifyNormalized_by_type_inv {T : NameTables} {input : Text} {t : String}
    (h : classifyNormalized T input = .get_pokemon_by_type t) :
    analyzeComplexQuery input = none ∧ generationKeyword input = false ∧
      truthyString (findPokemonType input false) = some t := by
  unfold classifyNormalized at h
  split at h
  · cases h
  split at h
  · next r hr => exact absurd h ((number_rules_ne_by_type input r t).1 hr)
  split at h
  · next r hr => exact absurd h ((number_rules_ne_by_type input r t).2.1 hr)
  split at h
  · next r hr => exact absurd h ((number_rules_ne_by_type input r t).2.2 hr)
  split at h
  · exact absurd h (sub_classifiers_ne_by_type input .help t).1
  split at h
  · next r hr => exact absurd h ((sub_classifiers_ne_by_type input r t).2.1 hr)
  split at h
  · exact absurd h (sub_classifiers_ne_by_type input .help t).2.2.1
  split at h
  · cases h
    have hg : ¬ generationKeyword input = true := by assumption
    exact ⟨by assumption, by simpa using hg, by assumption⟩
  split at h
  · split at h <;> cases h
  split at h
  · next r hr => exact absurd h ((sub_classifiers_ne_by_type input r t).2.2.2 hr)
  split at h <;> cases h
/-- C7: when rules 1-7 do not fire and a type name occurs in the input,
`analyzeIntent` returns `get_pokemon_by_type` with that type; and whenever
`analyzeIntent` returns `get_pokemon_by_type` with a type, that type is the only
one of the 18 type names occurring in the input, and `extractGeneration` finds
no generation in it. -/
theorem C7_single_type (T : NameTables) (userInput : String) (t : String) :
    (quitKeyword (normalizeInput userInput) = false →
      pokedexNumberRule (normalizeInput userInput) = none →
      directNumberRule (normalizeInput userInput) = none →
      numberSuffixRule (normalizeInput userInput) = none →
      effectivenessKeyword (normalizeInput userInput) = false →
      analyzeComplexQuery (normalizeInput userInput) = none →
      generationKeyword (normalizeInput userInput) = false →
      t ∈ POKEMON_TYPES.map Prod.fst →
      includes (normalizeInput userInput) t = true →
      analyzeIntent T userInput = .get_pokemon_by_type t) ∧
    (analyzeIntent T userInput = .get_pokemon_by_type t →
      findAllPokemonTypes (normalizeInput userInput) = [t] ∧
      (∀ k ∈ POKEMON_TYPES.map Prod.fst,
        includes (normalizeInput userInput) k = true ↔ k = t) ∧
      extractGeneration (normalizeInput userInput) = none) := by
  constructor
  · intro hquit h2 h3 h4 hkw h6 hgk hkey hinc
    have hmem : t ∈ findAllPokemonTypes (normalizeInput userInput) :=
      mem_findAllPokemonTypes.2 ⟨hkey, hinc⟩
    have hone := single_type_of_complex_none h6 hmem
    have h8 : truthyString (findPokemonType (normalizeInput userInput) false) = some t := by
      rw [findPokemonType_eq_head, hone]
      show truthyString (some t) = some t
      unfold truthyString
      simp only [POKEMON_TYPES_keys_nonempty t hkey, Bool.false_eq_true, if_false]
    unfold analyzeIntent classifyNormalized
    simp [hquit, h2, h3, h4, hkw, h6, hgk, h8]
  · intro h
    obtain ⟨h6, hgk, h8⟩ := classifyNormalized_by_type_inv h
    have hhead : (findAllPokemonTypes (normalizeInput userInput)).head? = some t := by
      rw [findPokemonType_eq_head] at h8
      cases hh : (findAllPokemonTypes (normalizeInput userInput)).head? with
      | none => rw [hh] at h8; cases h8
      | some a =>
        rw [hh] at h8
        unfold truthyString at h8
        split at h8
        · split at h8
          · cases h8
          · next s hs _ => cases hs; cases h8; rfl
        · cases h8
    have hmem : t ∈ findAllPokemonTypes (normalizeInput userInput) :=
      List.mem_of_mem_head? hhead
    have hone := single_type_of_complex_none h6 hmem
    refine ⟨hone, fun k hk => ⟨fun hinc => ?_, fun hkt => ?_⟩,
      extractGeneration_eq_none_of_no_keyword hgk⟩
    · have : k ∈ findAllPokemonTypes (normalizeInput userInput) :=
        mem_findAllPokemonTypes.2 ⟨hk, hinc⟩
      rw [hone] at this
      exact List.mem_singleton.1 this
    · rw [hkt]
      exact (mem_findAllPokemonTypes.1 hmem).2

/-- Witness of C7: the test case `전기 타입 포켓몬 알려줘` gives type `전기`,
the only type name in it. -/
theorem C7_single_type_witness :
    analyzeIntent emptyTables "전기 타입 포켓몬 알려줘" = .get_pokemon_by_type "전기" ∧
    findAllPokemonTypes (normalizeInput "전기 타입 포켓몬 알려줘") = ["전기"] ∧
    extractGeneration (normalizeInput "전기 타입 포켓몬 알려줘") = none :=
  have h := (C7_single_type emptyTables "전기 타입 포켓몬 알려줘" "전기").1 (by decide)
    (by decide) (by decide) (by decide) (by decide) (by decide) (by decide) (by decide)
    (by decide)
  have h' := (C7_single_type emptyTables "전기 타입 포켓몬 알려줘" "전기").2 h
  ⟨h, h'.1, h'.2.2⟩

/-! ## The help text's examples -/

/-- When rules 1-8, 10 and 11 do not fire and no stats keyword occurs, the
answer is decided by the species-name extractor alone: `get_pokemon_info` with
the name it finds, `help` when it finds none. -/
theorem classifyNormalized_name_or_help (T : NameTables) (input : Text)
    (hquit : quitKeyword input = false) (h2 : pokedexNumberRule input = none)
    (h3 : directNumberRule input = none) (h4 : numberSuffixRule input = none)
    (hkw : effectivenessKeyword input = false) (h6 : analyzeComplexQuery input = none)
    (hgk : generationKeyword input = false)
    (h8 : truthyString (findPokemonType input false) = none)
    (hstats : statsKeyword input = false) (h10 : searchRule input = none)
    (h11 : typeListKeyword input = false) :
    classifyNormalized T input =
      match truthyString (extractPokemonName T input) with
      | some pokemonName => .get_pokemon_info pokemonName
      | none => .help := by
  unfold classifyNormalized
  cases hn : truthyString (extractPokemonName T input) <;>
    simp [hquit, h2, h3, h4, hkw, h6, hgk, h8, hstats, h10, h11]

/-- C8, the code at the claim's input: `불꽃으로 시작하는 포켓몬 찾아줘` is
answered by the single-type rule, `get_pokemon_by_type` with `불꽃`, before the
search rule is reached; and the search-query extractor, had it been reached,
would capture `불꽃으`, not `불꽃`. -/
theorem C8_search_example_is_type_query (T : NameTables) :
    analyzeIntent T "불꽃으로 시작하는 포켓몬 찾아줘" = .get_pokemon_by_type "불꽃" ∧
    analyzeIntent T "불꽃으로 시작하는 포켓몬 찾아줘" ≠ .search_pokemon "불꽃" ∧
    extractSearchQuery (normalizeInput "불꽃으로 시작하는 포켓몬 찾아줘") = some "불꽃으" := by
  have hq : quitKeyword (normalizeInput "불꽃으로 시작하는 포켓몬 찾아줘") = false := by
    decide
  have h2 : pokedexNumberRule (normalizeInput "불꽃으로 시작하는 포켓몬 찾아줘") = none := by
    decide
  have h3 : directNumberRule (normalizeInput "불꽃으로 시작하는 포켓몬 찾아줘") = none := by
    decide
  have h4 : numberSuffixRule (normalizeInput "불꽃으로 시작하는 포켓몬 찾아줘") = none := by
    decide
  have hk : effectivenessKeyword (normalizeInput "불꽃으로 시작하는 포켓몬 찾아줘") = false := by
    decide
  have h6 : analyzeComplexQuery (normalizeInput "불꽃으로 시작하는 포켓몬 찾아줘") = none := by
    decide
  have hg : generationKeyword (normalizeInput "불꽃으로 시작하는 포켓몬 찾아줘") = false := by
    decide
  have h8 : truthyString (findPokemonType (normalizeInput "불꽃으로 시작하는 포켓몬 찾아줘")
      false) = some "불꽃" := by decide
  have key : analyzeIntent T "불꽃으로 시작하는 포켓몬 찾아줘" = .get_pokemon_by_type "불꽃" := by
    unfold analyzeIntent classifyNormalized
    simp [hq, h2, h3, h4, hk, h6, hg, h8]
  refine ⟨key, ?_, by decide⟩
  rw [key]
  exact fun h => Intent.noConfusion h

/-- C9, the code at the claim's input: `포켓몬 타입들 알려줘` never yields
`get_pokemon_types`; it yields `get_pokemon_info` if the species-name extractor
finds a name in it and `help` if not (as with empty name tables). -/
theorem C9_type_list_example_is_help (T : NameTables) :
    analyzeIntent T "포켓몬 타입들 알려줘" ≠ .get_pokemon_types ∧
    analyzeIntent T "포켓몬 타입들 알려줘" =
      (match truthyString (extractPokemonName T (normalizeInput "포켓몬 타입들 알려줘")) with
        | some pokemonName => .get_pokemon_info pokemonName
        | none => .help) ∧
    typeListKeyword (normalizeInput "포켓몬 타입들 알려줘") = false ∧
    analyzeIntent emptyTables "포켓몬 타입들 알려줘" = .help := by
  have key := classifyNormalized_name_or_help T
    (normalizeInput "포켓몬 타입들 알려줘") (by decide) (by decide) (by decide)
    (by decide) (by decide) (by decide) (by decide) (by decide) (by decide) (by decide)
    (by decide)
  refine ⟨?_, key, by decide, by decide⟩
  show classifyNormalized T (normalizeInput "포켓몬 타입들 알려줘") ≠ .get_pokemon_types
  rw [key]
  split <;> exact fun h => Intent.noConfusion h

/-- C10, the code at the claim's inputs: `도감번호 25번` gives
`get_pokemon_info` with `25`, but `120번 포켓몬` passes every catalogue-number
rule unmatched; it yields `get_pokemon_info` only with a name the species-name
extractor finds in it, and `help` if there is none (as with empty name
tables). -/
theorem C10_number_examples (T : NameTables) :
    analyzeIntent T "도감번호 25번" = .get_pokemon_info "25" ∧
    pokedexNumberRule (normalizeInput "120번 포켓몬") = none ∧
    directNumberRule (normalizeInput "120번 포켓몬") = none ∧
    numberSuffixRule (normalizeInput "120번 포켓몬") = none ∧
    analyzeIntent T "120번 포켓몬" =
      (match truthyString (extractPokemonName T (normalizeInput "120번 포켓몬")) with
        | some pokemonName => .get_pokemon_info pokemonName
        | none => .help) ∧
    analyzeIntent emptyTables "120번 포켓몬" = .help := by
  have h25q : quitKeyword (normalizeInput "도감번호 25번") = false := by decide
  have h25 : pokedexNumberRule (normalizeInput "도감번호 25번")
      = some (.get_pokemon_info "25") := by decide
  have key := classifyNormalized_name_or_help T
    (normalizeInput "120번 포켓몬") (by decide) (by decide) (by decide)
    (by decide) (by decide) (by decide) (by decide) (by decide) (by decide) (by decide)
    (by decide)
  refine ⟨?_, by decide, by decide, by decide, key, by decide⟩
  unfold analyzeIntent classifyNormalized
  simp [h25q, h25]

/-! ## The type-effectiveness multiplier -/

/-- One loop iteration multiplies the accumulator by two, by a half or by zero,
or leaves it alone. -/
theorem effectivenessStep_cases (a : String) (acc : JSNumber) (d : String) :
    effectivenessStep a acc d = acc.timesTwo ∨ effectivenessStep a acc d = acc.timesHalf ∨
    effectivenessStep a acc d = acc.timesZero ∨ effectivenessStep a acc d = acc := by
  unfold effectivenessStep
  split
  · exact Or.inr (Or.inr (Or.inr rfl))
  · split
    · exact Or.inl rfl
    · split
      · exact Or.inr (Or.inl rfl)
      · split
        · exact Or.inr (Or.inr (Or.inl rfl))
        · exact Or.inr (Or.inr (Or.inr rfl))

/-- C11: for every attacking type, `calculateTypeEffectiveness` on one
defending type returns 0, 1/2, 1 or 2, and on one or two defending types it
returns 0, 1/4, 1/2, 1, 2 or 4 (the six constants stand for these numbers). -/
theorem C11_multiplier_values (a : String) (ds : List String) :
    (ds.length = 1 → calculateTypeEffectiveness a ds ∈
      [JSNumber.zero, JSNumber.half, JSNumber.one, JSNumber.two]) ∧
    (ds.length = 1 ∨ ds.length = 2 → calculateTypeEffectiveness a ds ∈
      [JSNumber.zero, JSNumber.quarter, JSNumber.half, JSNumber.one, JSNumber.two,
        JSNumber.four]) ∧
    [JSNumber.zero, JSNumber.quarter, JSNumber.half, JSNumber.one, JSNumber.two,
        JSNumber.four].map JSNumber.toRat
      = [some 0, some (1 / 4), some (1 / 2), some 1, some 2, some 4] := by
  have single : ∀ d : String, effectivenessStep a JSNumber.one d ∈
      [JSNumber.zero, JSNumber.half, JSNumber.one, JSNumber.two] := by
    intro d
    rcases effectivenessStep_cases a JSNumber.one d with h | h | h | h <;> rw [h] <;> decide
  have second : ∀ (x : JSNumber) (d : String),
      x ∈ [JSNumber.zero, JSNumber.half, JSNumber.one, JSNumber.two] →
      effectivenessStep a x d ∈ [JSNumber.zero, JSNumber.quarter, JSNumber.half,
        JSNumber.one, JSNumber.two, JSNumber.four] := by
    intro x d hx
    simp only [List.mem_cons, List.mem_singleton, List.not_mem_nil, or_false] at hx
    rcases hx with rfl | rfl | rfl | rfl <;>
      rcases effectivenessStep_cases a _ d with h | h | h | h <;> rw [h] <;> decide
  have one_type : ds.length = 1 → calculateTypeEffectiveness a ds ∈
      [JSNumber.zero, JSNumber.half, JSNumber.one, JSNumber.two] := by
    intro h
    match ds, h with
    | [d], _ => exact single d
  refine ⟨one_type, ?_, ?_⟩
  · intro h
    rcases h with h | h
    · have := one_type h
      simp only [List.mem_cons, List.mem_singleton, List.not_mem_nil, or_false] at this ⊢
      tauto
    · match ds, h with
      | [d1, d2], _ => exact second _ d2 (single d1)
  · simp [JSNumber.toRat, JSNumber.zero, JSNumber.quarter, JSNumber.half, JSNumber.one,
      JSNumber.two, JSNumber.four]
    norm_num

/-- Witness of C11: fire against grass, and fire against grass and bug. -/
theorem C11_multiplier_values_witness :
    calculateTypeEffectiveness "fire" ["grass"] = JSNumber.two ∧
    calculateTypeEffectiveness "fire" ["grass", "bug"] = JSNumber.four ∧
    calculateTypeEffectiveness "fire" ["grass"] ∈
      [JSNumber.zero, JSNumber.half, JSNumber.one, JSNumber.two] ∧
    calculateTypeEffectiveness "fire" ["grass", "bug"] ∈
      [JSNumber.zero, JSNumber.quarter, JSNumber.half, JSNumber.one, JSNumber.two,
        JSNumber.four] :=
  ⟨by decide, by decide, (C11_multiplier_values "fire" ["grass"]).1 (by decide),
    (C11_multiplier_values "fire" ["grass", "bug"]).2.1 (Or.inr (by decide))⟩

/-- The three double multiplications are exact on an accumulator that is still
within `n < 1023` steps of `1`. -/
theorem JSNumber.times_exact {acc : JSNumber} {n : Nat} (hw : acc.within n)
    (hn : n < 1023) :
    ∃ q : ℚ, acc.toRat = some q ∧
      (acc.timesTwo.within (n + 1) ∧ acc.timesTwo.toRat = some (q * 2)) ∧
      (acc.timesHalf.within (n + 1) ∧ acc.timesHalf.toRat = some (q * (1 / 2))) ∧
      (acc.timesZero.within (n + 1) ∧ acc.timesZero.toRat = some (q * 0)) ∧
      acc.within (n + 1) := by
  cases acc with
  | zero =>
    refine ⟨0, rfl, ⟨trivial, ?_⟩, ⟨trivial, ?_⟩, ⟨trivial, ?_⟩, trivial⟩ <;>
      simp [JSNumber.timesTwo, JSNumber.timesHalf, JSNumber.timesZero, JSNumber.toRat]
  | pow2 k =>
    obtain ⟨h1, h2⟩ := hw
    have hk1 : k < 1023 := by omega
    have hk2 : -1074 < k := by omega
    refine ⟨(2 : ℚ) ^ k, rfl, ⟨?_, ?_⟩, ⟨?_, ?_⟩, ⟨trivial, ?_⟩, ?_⟩
    · simp only [JSNumber.timesTwo, hk1, if_true, JSNumber.within]
      push_cast; omega
    · simp only [JSNumber.timesTwo, hk1, if_true, JSNumber.toRat]
      rw [zpow_add_one₀ (by norm_num)]
    · simp only [JSNumber.timesHalf, hk2, if_true, JSNumber.within]
      push_cast; omega
    · simp only [JSNumber.timesHalf, hk2, if_true, JSNumber.toRat]
      rw [zpow_sub_one₀ (by norm_num)]; norm_num
    · simp [JSNumber.timesZero, JSNumber.toRat]
    · simp only [JSNumber.within]
      push_cast; omega
  | infinity => exact absurd hw (by simp [JSNumber.within])
  | nan => exact absurd hw (by simp [JSNumber.within])

/-- One loop iteration on an accumulator within `n < 1023` steps of `1`
multiplies its value by the specification's factor, exactly. -/
theorem effectivenessStep_exact (a d : String) {acc : JSNumber} {n : Nat}
    (hw : acc.within n) (hn : n < 1023) :
    (effectivenessStep a acc d).within (n + 1) ∧
    ∃ q : ℚ, acc.toRat = some q ∧
      (effectivenessStep a acc d).toRat = some (q * specFactor a d) := by
  obtain ⟨q, hq, h2, hh, h0, h1⟩ := JSNumber.times_exact hw hn
  have hc : ∀ l : List String, l.contains d = true ↔ d ∈ l := fun l => by
    simp only [List.elem_eq_mem, decide_eq_true_eq]
  unfold effectivenessStep specFactor
  cases TYPE_EFFECTIVENESS.lookup a with
  | none => exact ⟨h1, q, hq, by simpa using hq⟩
  | some chart =>
    obtain ⟨se, nve, ne⟩ := chart
    by_cases hs : d ∈ se
    · simp only [hc, hs, if_true]
      exact ⟨h2.1, q, hq, h2.2⟩
    · by_cases hv : d ∈ nve
      · simp only [hc, hs, hv, if_true, if_false]
        exact ⟨hh.1, q, hq, hh.2⟩
      · cases ne with
        | none =>
          simp only [hc, hs, hv, if_false, Option.getD_none, List.not_mem_nil,
            Bool.false_eq_true]
          exact ⟨h1, q, hq, by simpa using hq⟩
        | some l =>
          by_cases hz : d ∈ l
          · simp only [hc, hs, hv, hz, if_true, if_false, Option.getD_some]
            exact ⟨h0.1, q, hq, h0.2⟩
          · simp only [hc, hs, hv, hz, if_false, Option.getD_some]
            exact ⟨h1, q, hq, by simpa using hq⟩

/-- The whole loop, started within `n` steps of `1` and short enough not to
leave the exact range, multiplies the accumulator by the specification's
product. -/
theorem foldl_effectivenessStep_exact (a : String) :
    ∀ (ds : List String) (acc : JSNumber) (n : Nat), acc.within n →
      n + ds.length ≤ 1023 →
      ∃ q : ℚ, acc.toRat = some q ∧
        (ds.foldl (effectivenessStep a) acc).toRat = some (q * specMultiplier a ds) := by
  intro ds
  induction ds with
  | nil =>
    intro acc n hw _
    cases acc with
    | zero => exact ⟨0, rfl, by simp [specMultiplier, JSNumber.toRat]⟩
    | pow2 k => exact ⟨(2 : ℚ) ^ k, rfl, by simp [specMultiplier, JSNumber.toRat]⟩
    | infinity => exact absurd hw (by simp [JSNumber.within])
    | nan => exact absurd hw (by simp [JSNumber.within])
  | cons d ds ih =>
    intro acc n hw hlen
    have hn : n < 1023 := by simp only [List.length_cons] at hlen; omega
    obtain ⟨hw', q, hq, hstep⟩ := effectivenessStep_exact a d hw hn
    obtain ⟨q', hq', hfold⟩ := ih (effectivenessStep a acc d) (n + 1) hw'
      (by simp only [List.length_cons] at hlen; omega)
    rw [hstep] at hq'
    cases hq'
    refine ⟨q, hq, ?_⟩
    rw [List.foldl_cons, hfold]
    simp only [specMultiplier, List.map_cons, List.prod_cons, mul_assoc]
/-- Two finite values that stand for the same rational are the same value. -/
theorem JSNumber.eq_of_toRat_eq {x y : JSNumber} {q : ℚ} (hx : x.toRat = some q)
    (hy : y.toRat = some q) : x = y := by
  have two_pos : (0 : ℚ) < 2 := by norm_num
  cases x with
  | zero =>
    cases y with
    | zero => rfl
    | pow2 k =>
      simp only [JSNumber.toRat, Option.some.injEq] at hx hy
      rw [← hx] at hy
      exact absurd hy (zpow_ne_zero k two_pos.ne')
    | infinity => simp [JSNumber.toRat] at hy
    | nan => simp [JSNumber.toRat] at hy
  | pow2 k =>
    cases y with
    | zero =>
      simp only [JSNumber.toRat, Option.some.injEq] at hx hy
      rw [← hy] at hx
      exact absurd hx (zpow_ne_zero k two_pos.ne')
    | pow2 k' =>
      simp only [JSNumber.toRat, Option.some.injEq] at hx hy
      rw [← hy] at hx
      have hk : k = k' := zpow_right_injective₀ two_pos (by norm_num) hx
      rw [hk]
    | infinity => simp [JSNumber.toRat] at hy
    | nan => simp [JSNumber.toRat] at hy
  | infinity => simp [JSNumber.toRat] at hx
  | nan => simp [JSNumber.toRat] at hx

/-- C12, as stated, fails on long lists: fire against 1024 grass types and
one fire type overflows to `Infinity`, while the same types with the fire type
first give `2^1023`, the value of the product. -/
theorem C12_counterexample :
    calculateTypeEffectiveness "fire" (List.replicate 1024 "grass" ++ ["fire"])
      = JSNumber.infinity ∧
    calculateTypeEffectiveness "fire" ("fire" :: List.replicate 1024 "grass")
      = JSNumber.pow2 1023 ∧
    (List.replicate 1024 "grass" ++ ["fire"]).Perm ("fire" :: List.replicate 1024 "grass") ∧
    specMultiplier "fire" (List.replicate 1024 "grass" ++ ["fire"]) = (2 : ℚ) ^ (1023 : ℤ) := by
  have up : ∀ acc : JSNumber, effectivenessStep "fire" acc "grass" = acc.timesTwo :=
    fun _ => rfl
  have down : ∀ acc : JSNumber, effectivenessStep "fire" acc "fire" = acc.timesHalf :=
    fun _ => rfl
  have climb : ∀ (n : Nat) (k : Int), k + n ≤ 1023 →
      (List.replicate n "grass").foldl (effectivenessStep "fire") (JSNumber.pow2 k)
        = JSNumber.pow2 (k + n) := by
    intro n
    induction n with
    | zero => intro k _; simp
    | succ n ih =>
      intro k hk
      have hk' : k < 1023 := by push_cast at hk; omega
      rw [List.replicate_succ, List.foldl_cons, up]
      simp only [JSNumber.timesTwo, hk', if_true]
      rw [ih (k + 1) (by push_cast at hk ⊢; omega)]
      congr 1
      push_cast; ring
  have fgrass : specFactor "fire" "grass" = 2 := by
    simp [specFactor, TYPE_EFFECTIVENESS, List.lookup]
  have ffire : specFactor "fire" "fire" = 1 / 2 := by
    simp [specFactor, TYPE_EFFECTIVENESS, List.lookup]
  refine ⟨?_, ?_, List.perm_append_singleton _ _, ?_⟩
  · unfold calculateTypeEffectiveness
    rw [List.foldl_append, List.replicate_succ' 1023, List.foldl_append]
    have := climb 1023 0 (by norm_num)
    rw [JSNumber.one, this]
    rfl
  · unfold calculateTypeEffectiveness
    rw [List.foldl_cons, down]
    have := climb 1024 (-1) (by norm_num)
    show (List.replicate 1024 "grass").foldl (effectivenessStep "fire") (JSNumber.pow2 (-1))
      = JSNumber.pow2 1023
    rw [this]
    norm_num
  · simp only [specMultiplier, List.map_append, List.map_replicate, List.prod_append,
      List.prod_replicate, fgrass, ffire, List.map_cons, List.map_nil, List.prod_cons,
      List.prod_nil]
    norm_num

/-- C12, amended: for a list of at most 1023 defending types,
`calculateTypeEffectiveness` is exactly the product of the single-defender
factors; hence it is 1 on the empty list and takes the same value on any two
such lists that are permutations of each other. -/
theorem C12_product_of_factors (a : String) (ds : List String)
    (hlen : ds.length ≤ 1023) :
    (calculateTypeEffectiveness a ds).toRat = some (specMultiplier a ds) ∧
    calculateTypeEffectiveness a [] = JSNumber.one ∧
    (∀ ds' : List String, ds.Perm ds' →
      calculateTypeEffectiveness a ds' = calculateTypeEffectiveness a ds) := by
  have exact : ∀ l : List String, l.length ≤ 1023 →
      (calculateTypeEffectiveness a l).toRat = some (specMultiplier a l) := by
    intro l hl
    obtain ⟨q, hq, hfold⟩ := foldl_effectivenessStep_exact a l JSNumber.one 0
      (by simp [JSNumber.one, JSNumber.within]) (by omega)
    have hq1 : q = 1 := by
      simp only [JSNumber.one, JSNumber.toRat, zpow_zero, Option.some.injEq] at hq
      exact hq.symm
    rw [hq1, one_mul] at hfold
    exact hfold
  refine ⟨exact ds hlen, rfl, fun ds' hp => ?_⟩
  have h1 := exact ds hlen
  have h2 := exact ds' (by rw [← hp.length_eq]; exact hlen)
  have hprod : specMultiplier a ds' = specMultiplier a ds := by
    unfold specMultiplier
    exact (hp.map _).prod_eq.symm
  rw [hprod] at h2
  exact JSNumber.eq_of_toRat_eq h2 h1

/-- Witness of the amended C12: fire against water and grass, in both orders. -/
theorem C12_product_of_factors_witness :
    calculateTypeEffectiveness "fire" ["water", "grass"] = JSNumber.one ∧
    calculateTypeEffectiveness "fire" ["grass", "water"]
      = calculateTypeEffectiveness "fire" ["water", "grass"] ∧
    (calculateTypeEffectiveness "fire" ["water", "grass"]).toRat
      = some (specMultiplier "fire" ["water", "grass"]) :=
  ⟨by decide,
    (C12_product_of_factors "fire" ["water", "grass"] (by decide)).2.2 ["grass", "water"]
      (List.Perm.swap _ _ _),
    (C12_product_of_factors "fire" ["water", "grass"] (by decide)).1⟩

/-! ## The matrix and its renderings -/

/-- C13: for every attacking type of `TYPE_EFFECTIVENESS`, no set lists a type
twice and no defending type is in two of the three sets (an absent `noEffect`
counts as empty); the 18 attacking keys are distinct as well. -/
theorem C13_sets_disjoint :
    (∀ e ∈ TYPE_EFFECTIVENESS,
      e.2.superEffective.Nodup ∧ e.2.notVeryEffective.Nodup ∧
      (e.2.noEffect.getD []).Nodup ∧
      (∀ d ∈ e.2.superEffective, d ∉ e.2.notVeryEffective) ∧
      (∀ d ∈ e.2.superEffective, d ∉ e.2.noEffect.getD []) ∧
      (∀ d ∈ e.2.notVeryEffective, d ∉ e.2.noEffect.getD [])) ∧
    (TYPE_EFFECTIVENESS.map Prod.fst).Nodup ∧
    (TYPE_EFFECTIVENESS.map Prod.fst).length = 18 := by
  decide

/-- C14, the code at the claim's inputs: the matrix does list grass, ice, bug
and steel as the super-effective set of fire, but `handleTypeEffectivenessInfo`
returns no listing: for `불꽃`, and for each of the 18 type names, it raises a
`ReferenceError`, because the module that holds it never imports the matrix.
The only text it ever returns is the not-found message, for a name that is not
a type. -/
theorem C14_type_listing_raises_reference_error :
    handleTypeEffectivenessInfo "불꽃" = .error JSError.referenceError ∧
    (∀ t ∈ POKEMON_TYPES.map Prod.fst,
      handleTypeEffectivenessInfo t = .error JSError.referenceError) ∧
    (POKEMON_TYPES.map Prod.fst).length = 18 ∧
    (TYPE_EFFECTIVENESS.lookup "fire").map (fun c => joinKoreanNames c.superEffective)
      = some "풀, 얼음, 벌레, 강철" ∧
    (∀ type text, handleTypeEffectivenessInfo type = .ok text →
      convertKoreanToEnglishType type = none ∧
      text = "❌ \"" ++ type ++ "\" 타입을 찾을 수 없습니다.") := by
  refine ⟨by decide, by decide, by decide, by decide, ?_⟩
  intro type text h
  unfold handleTypeEffectivenessInfo at h
  cases hc : convertKoreanToEnglishType type with
  | none =>
    rw [hc] at h
    simp only [Except.ok.injEq] at h
    exact ⟨rfl, h.symm⟩
  | some e =>
    rw [hc] at h
    simp only [reduceCtorEq] at h

/-- C15: `getEffectivenessText` maps 0, 1/4, 1/2, 1, 2 and 4 to six pairwise
distinct descriptions, none of them the sentinel, and returns the sentinel
`알 수 없는 효과입니다` exactly on the values that are none of these six. -/
theorem C15_effectiveness_text (m : JSNumber) :
    [JSNumber.zero, JSNumber.quarter, JSNumber.half, JSNumber.one, JSNumber.two,
        JSNumber.four].map getEffectivenessText
      = ["효과가 없습니다", "매우 효과가 별로입니다", "효과가 별로입니다", "보통 효과입니다",
          "효과가 굉장합니다", "매우 효과가 굉장합니다"] ∧
    ([JSNumber.zero, JSNumber.quarter, JSNumber.half, JSNumber.one, JSNumber.two,
        JSNumber.four].map getEffectivenessText).Nodup ∧
    (getEffectivenessText m = "알 수 없는 효과입니다" ↔
      m ∉ [JSNumber.zero, JSNumber.quarter, JSNumber.half, JSNumber.one, JSNumber.two,
        JSNumber.four]) := by
  refine ⟨by decide, by decide, ?_⟩
  simp only [List.mem_cons, List.mem_singleton, List.not_mem_nil, or_false, not_or]
  unfold getEffectivenessText
  constructor
  · intro h
    split at h
    · exact absurd h (by decide)
    split at h
    · exact absurd h (by decide)
    split at h
    · exact absurd h (by decide)
    split at h
    · exact absurd h (by decide)
    split at h
    · exact absurd h (by decide)
    split at h
    · exact absurd h (by decide)
    exact ⟨by assumption, by assumption, by assumption, by assumption, by assumption,
      by assumption⟩
  · rintro ⟨h0, h1, h2, h3, h4, h5⟩
    simp only [h0, h1, h2, h3, h4, h5, if_false]

/-- C16: in `POKEMON_GENERATIONS` the keys are 1..9; for every `i` from 1 to 8
the end of generation `i` plus 1 is the start of generation `i + 1`; every
generation has start ≤ end; generation 1 starts at 1 and generation 9 ends at
1025. -/
theorem C16_generations_contiguous :
    POKEMON_GENERATIONS.map Prod.fst = [1, 2, 3, 4, 5, 6, 7, 8, 9] ∧
    (∀ i ∈ [1, 2, 3, 4, 5, 6, 7, 8],
      (POKEMON_GENERATIONS.lookup i).isSome = true ∧
      (POKEMON_GENERATIONS.lookup i).map (fun a => a.stop + 1)
        = (POKEMON_GENERATIONS.lookup (i + 1)).map (fun b => b.start)) ∧
    (∀ e ∈ POKEMON_GENERATIONS, e.2.start ≤ e.2.stop) ∧
    (POKEMON_GENERATIONS.lookup 1).map (fun a => a.start) = some 1 ∧
    (POKEMON_GENERATIONS.lookup 9).map (fun a => a.stop) = some 1025 := by
  decide

/-! ## Generations -/

/-- C17: for an integer `id` with `1 ≤ id ≤ 1025`, `getGenerationByPokemonId`
returns a generation `g` in 1..9 with its table entry, whose range contains
`id`, and no other generation's range contains `id`; for `id < 1` or
`id > 1025` it returns `null`. -/
theorem C17_generation_of_id (pokemonId : Int) :
    (1 ≤ pokemonId ∧ pokemonId ≤ 1025 →
      ∃ g info, getGenerationByPokemonId pokemonId = some (g, info) ∧
        1 ≤ g ∧ g ≤ 9 ∧ POKEMON_GENERATIONS.lookup g = some info ∧
        (info.start : Int) ≤ pokemonId ∧ pokemonId ≤ (info.stop : Int) ∧
        ∀ e ∈ POKEMON_GENERATIONS,
          (e.2.start : Int) ≤ pokemonId ∧ pokemonId ≤ (e.2.stop : Int) → e.1 = g) ∧
    (pokemonId < 1 ∨ 1025 < pokemonId → getGenerationByPokemonId pokemonId = none) := by
  have unique : ∀ g : Nat, ∀ lo hi : Int, lo ≤ pokemonId → pokemonId ≤ hi →
      (g, lo, hi) ∈ [((1 : Nat), (1 : Int), (151 : Int)), (2, 152, 251), (3, 252, 386),
        (4, 387, 493), (5, 494, 649), (6, 650, 721), (7, 722, 809), (8, 810, 905),
        (9, 906, 1025)] →
      ∀ e ∈ POKEMON_GENERATIONS,
        (e.2.start : Int) ≤ pokemonId ∧ pokemonId ≤ (e.2.stop : Int) → e.1 = g := by
    intro g lo hi hlo hhi hmem e he hr
    simp only [List.mem_cons, List.mem_singleton, List.not_mem_nil, or_false,
      Prod.mk.injEq] at hmem
    simp only [POKEMON_GENERATIONS, List.mem_cons, List.mem_singleton, List.not_mem_nil,
      or_false] at he
    rcases he with rfl | rfl | rfl | rfl | rfl | rfl | rfl | rfl | rfl <;>
      simp only [Nat.cast_ofNat, Nat.cast_one] at hr <;>
      rcases hmem with ⟨rfl, rfl, rfl⟩ | ⟨rfl, rfl, rfl⟩ | ⟨rfl, rfl, rfl⟩ |
        ⟨rfl, rfl, rfl⟩ | ⟨rfl, rfl, rfl⟩ | ⟨rfl, rfl, rfl⟩ | ⟨rfl, rfl, rfl⟩ |
        ⟨rfl, rfl, rfl⟩ | ⟨rfl, rfl, rfl⟩ <;>
      first | rfl | omega
  constructor
  · rintro ⟨h1, h2⟩
    by_cases c1 : pokemonId ≤ 151
    · refine ⟨1, ⟨"1세대", 1, 151, "관동지방"⟩, ?_, by decide, by decide, by decide,
        by simpa using h1, by simpa using c1,
        unique 1 1 151 h1 c1 (by simp)⟩
      simp [getGenerationByPokemonId, POKEMON_GENERATIONS, List.find?, h1, c1]
    by_cases c2 : pokemonId ≤ 251
    · have l2 : 152 ≤ pokemonId := by omega
      refine ⟨2, ⟨"2세대", 152, 251, "성도지방"⟩, ?_, by decide, by decide, by decide,
        by simpa using l2, by simpa using c2, unique 2 152 251 l2 c2 (by simp)⟩
      simp [getGenerationByPokemonId, POKEMON_GENERATIONS, List.find?, c1, l2, c2]
    by_cases c3 : pokemonId ≤ 386
    · have l3 : 252 ≤ pokemonId := by omega
      refine ⟨3, ⟨"3세대", 252, 386, "호연지방"⟩, ?_, by decide, by decide, by decide,
        by simpa using l3, by simpa using c3, unique 3 252 386 l3 c3 (by simp)⟩
      simp [getGenerationByPokemonId, POKEMON_GENERATIONS, List.find?, c1, c2, l3, c3]
    by_cases c4 : pokemonId ≤ 493
    · have l4 : 387 ≤ pokemonId := by omega
      refine ⟨4, ⟨"4세대", 387, 493, "신오지방"⟩, ?_, by decide, by decide, by decide,
        by simpa using l4, by simpa using c4, unique 4 387 493 l4 c4 (by simp)⟩
      simp [getGenerationByPokemonId, POKEMON_GENERATIONS, List.find?, c1, c2, c3, l4, c4]
    by_cases c5 : pokemonId ≤ 649
    · have l5 : 494 ≤ pokemonId := by omega
      refine ⟨5, ⟨"5세대", 494, 649, "하나지방"⟩, ?_, by decide, by decide, by decide,
        by simpa using l5, by simpa using c5, unique 5 494 649 l5 c5 (by simp)⟩
      simp [getGenerationByPokemonId, POKEMON_GENERATIONS, List.find?, c1, c2, c3, c4, l5,
        c5]
    by_cases c6 : pokemonId ≤ 721
    · have l6 : 650 ≤ pokemonId := by omega
      refine ⟨6, ⟨"6세대", 650, 721, "칼로스지방"⟩, ?_, by decide, by decide, by decide,
        by simpa using l6, by simpa using c6, unique 6 650 721 l6 c6 (by simp)⟩
      simp [getGenerationByPokemonId, POKEMON_GENERATIONS, List.find?, c1, c2, c3, c4, c5,
        l6, c6]
    by_cases c7 : pokemonId ≤ 809
    · have l7 : 722 ≤ pokemonId := by omega
      refine ⟨7, ⟨"7세대", 722, 809, "알로라지방"⟩, ?_, by decide, by decide, by decide,
        by simpa using l7, by simpa using c7, unique 7 722 809 l7 c7 (by simp)⟩
      simp [getGenerationByPokemonId, POKEMON_GENERATIONS, List.find?, c1, c2, c3, c4, c5,
        c6, l7, c7]
    by_cases c8 : pokemonId ≤ 905
    · have l8 : 810 ≤ pokemonId := by omega
      refine ⟨8, ⟨"8세대", 810, 905, "가라르지방"⟩, ?_, by decide, by decide, by decide,
        by simpa using l8, by simpa using c8, unique 8 810 905 l8 c8 (by simp)⟩
      simp [getGenerationByPokemonId, POKEMON_GENERATIONS, List.find?, c1, c2, c3, c4, c5,
        c6, c7, l8, c8]
    · have l9 : 906 ≤ pokemonId := by omega
      refine ⟨9, ⟨"9세대", 906, 1025, "팔데아지방"⟩, ?_, by decide, by decide, by decide,
        by simpa using l9, by simpa using h2, unique 9 906 1025 l9 h2 (by simp)⟩
      simp [getGenerationByPokemonId, POKEMON_GENERATIONS, List.find?, c1, c2, c3, c4, c5,
        c6, c7, c8, l9, h2]
  · intro h
    unfold getGenerationByPokemonId
    rw [List.find?_eq_none]
    intro e he
    simp only [POKEMON_GENERATIONS, List.mem_cons, List.mem_singleton, List.not_mem_nil,
      or_false] at he
    rcases he with rfl | rfl | rfl | rfl | rfl | rfl | rfl | rfl | rfl <;>
      simp <;> omega

/-- Witness of C17: id 25 is of generation 1, id 1025 of generation 9, and
ids 0 and 1026 have no generation. -/
theorem C17_generation_of_id_witness :
    (∃ g info, getGenerationByPokemonId 25 = some (g, info) ∧ 1 ≤ g ∧ g ≤ 9 ∧
      (info.start : Int) ≤ 25 ∧ (25 : Int) ≤ (info.stop : Int)) ∧
    getGenerationByPokemonId 0 = none ∧ getGenerationByPokemonId 1026 = none :=
  ⟨by
    obtain ⟨g, info, h, h1, h2, -, h3, h4, -⟩ :=
      (C17_generation_of_id 25).1 ⟨by decide, by decide⟩
    exact ⟨g, info, h, h1, h2, h3, h4⟩,
   (C17_generation_of_id 0).2 (Or.inl (by decide)),
   (C17_generation_of_id 1026).2 (Or.inr (by decide))⟩

/-! ## The known-species index -/

/-- A successful `lookup` returns an entry of the list. -/
theorem mem_of_lookup_eq_some {α β : Type} [BEq α] [LawfulBEq α] {k : α} {v : β} :
    ∀ {l : List (α × β)}, l.lookup k = some v → (k, v) ∈ l := by
  intro l
  induction l with
  | nil => intro h; cases h
  | cons e l ih =>
    obtain ⟨k', v'⟩ := e
    intro h
    rw [List.lookup_cons] at h
    by_cases hk : (k == k') = true
    · rw [hk] at h
      cases h
      rw [eq_of_beq hk]
      exact List.mem_cons_self _ _
    · have hf : (k == k') = false := Bool.eq_false_iff.2 hk
      rw [hf] at h
      exact List.mem_cons_of_mem _ (ih h)

/-- Every id of the literal `pokemonData` is a catalogue number, and every id
listed under generation 1 is in generation 1's range. -/
theorem pokemonData_bounds :
    (∀ e ∈ pokemonData, ∀ r ∈ e.2, ∀ id ∈ r.2, 1 ≤ id ∧ id ≤ 1025) ∧
    (∀ e ∈ pokemonData, e.1 = 1 → ∀ r ∈ e.2, ∀ id ∈ r.2, 1 ≤ id ∧ id ≤ 151) := by
  decide

/-- C18, as stated, fails: generation 2 lists id 86 under `얼음`, and 86 is
outside generation 2's range 152..251. -/
theorem C18_counterexample :
    86 ∈ getKnownPokemonByType 2 "얼음" ∧
    (POKEMON_GENERATIONS.lookup 2).map (fun a => (a.start, a.stop)) = some (152, 251) ∧
    ¬ (152 ≤ 86 ∧ 86 ≤ 251) := by
  decide

/-- C18, amended: every id listed by `getKnownPokemonByType` is a catalogue
number between 1 and 1025, and every id listed for generation 1 lies in
generation 1's range 1..151. -/
theorem C18_known_ids_bounds (generation : Nat) (type : String) (id : Nat)
    (h : id ∈ getKnownPokemonByType generation type) :
    (1 ≤ id ∧ id ≤ 1025) ∧
    (generation = 1 →
      (POKEMON_GENERATIONS.lookup 1).map (fun a => (a.start, a.stop)) = some (1, 151) ∧
      1 ≤ id ∧ id ≤ 151) := by
  unfold getKnownPokemonByType at h
  cases hg : pokemonData.lookup generation with
  | none => rw [hg] at h; exact absurd h (List.not_mem_nil id)
  | some byType =>
    rw [hg] at h
    cases ht : byType.lookup type with
    | none =>
      simp only [ht, Option.getD_none] at h
      exact absurd h (List.not_mem_nil id)
    | some ids =>
      simp only [ht, Option.getD_some] at h
      have he := mem_of_lookup_eq_some hg
      have hr := mem_of_lookup_eq_some ht
      exact ⟨pokemonData_bounds.1 _ he _ hr id h,
        fun h1 => ⟨by decide, pokemonData_bounds.2 _ he h1 _ hr id h⟩⟩

/-- Witness of the amended C18: id 25 under generation 1, `전기`. -/
theorem C18_known_ids_bounds_witness :
    25 ∈ getKnownPokemonByType 1 "전기" ∧ (1 ≤ 25 ∧ 25 ≤ 1025) ∧ (1 ≤ 25 ∧ 25 ≤ 151) :=
  ⟨by decide, (C18_known_ids_bounds 1 "전기" 25 (by decide)).1,
    ((C18_known_ids_bounds 1 "전기" 25 (by decide)).2 rfl).2⟩

/-! ## The extractors, once more -/

/-- The value of a decimal digit character. -/
theorem digitChar_value {d : Nat} (h : d < 10) : (Nat.digitChar d).toNat - 48 = d := by
  interval_cases d <;> rfl

/-- Reading back the digits that `Nat.toDigitsCore` puts in front of `ds`. -/
theorem foldl_toDigitsCore :
    ∀ (fuel n : Nat) (ds : List Char), n < fuel →
      (Nat.toDigitsCore 10 fuel n ds).foldl (fun acc c => 10 * acc + (c.toNat - 48)) 0
        = ds.foldl (fun acc c => 10 * acc + (c.toNat - 48)) n := by
  intro fuel
  induction fuel with
  | zero => intro n ds h; omega
  | succ fuel ih =>
    intro n ds h
    have hd : (Nat.digitChar (n % 10)).toNat - 48 = n % 10 :=
      digitChar_value (Nat.mod_lt _ (by decide))
    unfold Nat.toDigitsCore
    simp only
    split
    · rename_i h0
      rw [List.foldl_cons, hd]
      congr 1
      omega
    · rename_i h0
      rw [ih (n / 10) _ (by omega), List.foldl_cons, hd]
      congr 1
      omega

/-- The characters that `Nat.toDigitsCore` puts in front of a run of digits
are digits. -/
theorem toDigitsCore_isDigit :
    ∀ (fuel n : Nat) (ds : List Char), (∀ c ∈ ds, isDigit c = true) →
      ∀ c ∈ Nat.toDigitsCore 10 fuel n ds, isDigit c = true := by
  intro fuel
  induction fuel with
  | zero => intro n ds hds c hc; exact hds c (by simpa [Nat.toDigitsCore] using hc)
  | succ fuel ih =>
    intro n ds hds c hc
    have hdigit : isDigit (Nat.digitChar (n % 10)) = true := by
      have hlt : n % 10 < 10 := Nat.mod_lt _ (by decide)
      generalize n % 10 = d at hlt
      interval_cases d <;> decide
    have hcons : ∀ c ∈ Nat.digitChar (n % 10) :: ds, isDigit c = true := by
      intro c hc
      rcases List.mem_cons.1 hc with h | h
      · rw [h]; exact hdigit
      · exact hds c h
    unfold Nat.toDigitsCore at hc
    simp only at hc
    split at hc
    · exact hcons c hc
    · exact ih _ _ hcons c hc

/-- On the decimal numeral of `n`, `parseInt` gives `n` back. -/
theorem parseInt_repr (n : Nat) : parseInt (Nat.repr n).toList = n := by
  show (Nat.toDigitsCore 10 (n + 1) n []).foldl _ 0 = n
  rw [foldl_toDigitsCore (n + 1) n [] (Nat.lt_succ_self n)]
  rfl

/-- The decimal numeral of a number is a non-empty run of digits. -/
theorem repr_digits (n : Nat) :
    (Nat.repr n).toList ≠ [] ∧ ∀ c ∈ (Nat.repr n).toList, isDigit c = true := by
  constructor
  · show Nat.toDigitsCore 10 (n + 1) n [] ≠ []
    unfold Nat.toDigitsCore
    simp only
    split
    · exact List.cons_ne_nil _ _
    · intro hnil
      have hmem : Nat.digitChar (n % 10) ∈ Nat.toDigitsCore 10 n (n / 10)
          [Nat.digitChar (n % 10)] := by
        have keep : ∀ (fuel m : Nat) (ds : List Char) (c : Char), c ∈ ds →
            c ∈ Nat.toDigitsCore 10 fuel m ds := by
          intro fuel
          induction fuel with
          | zero => intro m ds c hc; simpa [Nat.toDigitsCore] using hc
          | succ fuel ih =>
            intro m ds c hc
            unfold Nat.toDigitsCore
            simp only
            split
            · exact List.mem_cons_of_mem _ hc
            · exact ih _ _ c (List.mem_cons_of_mem _ hc)
        exact keep _ _ _ _ (List.mem_singleton.2 rfl)
      rw [hnil] at hmem
      exact absurd hmem (List.not_mem_nil _)
  · intro c hc
    exact toDigitsCore_isDigit (n + 1) n [] (fun _ hx => absurd hx (List.not_mem_nil _)) c hc

/-- C19, as stated, fails: `10세대` yields 10 and `0세대` yields 0, neither a
key of the generation table. -/
theorem C19_counterexample :
    extractGeneration "10세대".toList = some 10 ∧
    POKEMON_GENERATIONS.lookup 10 = none ∧
    extractGeneration "0세대".toList = some 0 ∧
    POKEMON_GENERATIONS.lookup 0 = none := by
  decide

/-- C19, amended: a value that `extractGeneration` takes from a region name
(the input has no `<digits>세대`) is an ordinal 1..9, a key of the generation
table; the numeric form is not range-checked: for every natural number `n`
below `2^53`, on the decimal numeral of `n` followed by `세대` and any further
text, `extractGeneration` returns `n`. -/
theorem C19_extractGeneration_values :
    (∀ (input : Text) (g : Nat), extractGeneration input = some g →
      matchGenerationNumber input = none →
      1 ≤ g ∧ g ≤ 9 ∧ (POKEMON_GENERATIONS.lookup g).isSome = true) ∧
    (∀ (n : Nat) (rest : Text), n < 2 ^ 53 →
      extractGeneration ((Nat.repr n).toList ++ "세대".toList ++ rest) = some n) := by
  constructor
  · intro input g hg hm
    unfold extractGeneration at hg
    rw [hm] at hg
    simp only at hg
    cases hr : matchRegion input with
    | none => rw [hr] at hg; cases hg
    | some r =>
      rw [hr] at hg
      simp only at hg
      have hmem : r ∈ ["관동", "성도", "호연", "신오", "하나", "칼로스", "알로라", "가라르",
          "팔데아"] := by
        unfold matchRegion at hr
        obtain ⟨t, -, ht⟩ := List.exists_of_findSome?_eq_some hr
        exact List.mem_of_find?_eq_some ht
      have key : ∀ r ∈ ["관동", "성도", "호연", "신오", "하나", "칼로스", "알로라", "가라르",
          "팔데아"], ∀ g, getGenerationByRegion r = some g → 1 ≤ g ∧ g ≤ 9 ∧
            (POKEMON_GENERATIONS.lookup g).isSome = true := by
        decide
      exact key r hmem g hg
  · intro n rest _
    obtain ⟨hne, hdig⟩ := repr_digits n
    have htake : ((Nat.repr n).toList ++ ("세대".toList ++ rest)).takeWhile isDigit
        = (Nat.repr n).toList := by
      rw [List.takeWhile_append_of_pos hdig]
      simp [List.takeWhile, isDigit]
    have hdrop : ((Nat.repr n).toList ++ ("세대".toList ++ rest)).dropWhile isDigit
        = "세대".toList ++ rest := by
      rw [List.dropWhile_append_of_pos hdig]
      simp [List.dropWhile, isDigit]
    have hmatch : matchGenerationNumber ((Nat.repr n).toList ++ "세대".toList ++ rest)
        = some (Nat.repr n).toList := by
      unfold matchGenerationNumber
      rw [List.append_assoc]
      cases hl : (Nat.repr n).toList ++ ("세대".toList ++ rest) with
      | nil =>
        exfalso
        have := congrArg List.length hl
        simp at this
      | cons a l =>
        rw [List.tails, List.findSome?_cons, ← hl]
        simp only [htake, hdrop]
        have he : (Nat.repr n).toList.isEmpty = false := by
          cases hx : (Nat.repr n).toList with
          | nil => exact absurd hx hne
          | cons _ _ => rfl
        have hp : "세대".toList.isPrefixOf ("세대".toList ++ rest) = true := by
          simp
        simp only [he, hp, Bool.not_false, Bool.and_self, if_true]
    unfold extractGeneration
    rw [hmatch]
    simp only [parseInt_repr]

/-- Witness of the amended C19: `관동 포켓몬` gives the ordinal 1 through the
region name, and `0세대 포켓몬` gives 0 through the numeric form. -/
theorem C19_extractGeneration_values_witness :
    extractGeneration "관동 포켓몬".toList = some 1 ∧
    matchGenerationNumber "관동 포켓몬".toList = none ∧
    (1 ≤ 1 ∧ 1 ≤ 9 ∧ (POKEMON_GENERATIONS.lookup 1).isSome = true) ∧
    0 < 2 ^ 53 ∧
    extractGeneration ((Nat.repr 0).toList ++ "세대".toList ++ " 포켓몬".toList) = some 0 :=
  ⟨by decide, by decide,
    C19_extractGeneration_values.1 "관동 포켓몬".toList 1 (by decide) (by decide),
    by decide,
    C19_extractGeneration_values.2 0 " 포켓몬".toList (by decide)⟩

/-- C20, the code at the claim's input: on `불꽃`, where `findAllPokemonTypes`
finds one type and so there is no second one, `findPokemonType(input, true)`
returns that first type instead of `null`; in general it returns the second
found type when there are at least two, the only one when there is exactly one,
and `null` when there is none. -/
theorem C20_second_type_falls_back_to_first :
    findAllPokemonTypes "불꽃".toList = ["불꽃"] ∧
    findPokemonType "불꽃".toList true = some "불꽃" ∧
    (∀ input : Text, findPokemonType input true =
      (match findAllPokemonTypes input with
        | _ :: t2 :: _ => some t2
        | [t1] => some t1
        | [] => none)) := by
  refine ⟨by decide, by decide, ?_⟩
  intro input
  unfold findPokemonType findAllPokemonTypes
  by_cases he : input.isEmpty = true
  · simp [he]
  · simp only [he, if_false, Bool.false_eq_true]
    cases (POKEMON_TYPES.map Prod.fst).filter
      (fun koreanType => !koreanType.toList.isEmpty && includes input koreanType) with
    | nil => rfl
    | cons a l =>
      cases l with
      | nil => simp
      | cons b l => simp

/-! ## The two type-name maps -/

/-- The type names an intent carries are the first names of
`findAllPokemonTypes` on the classified text. -/
theorem typeNames_prefix_findAll (T : NameTables) (input : Text) :
    (classifyNormalized T input).typeNames <+: findAllPokemonTypes input := by
  have pok : ∀ n r, pokedexIntent n = some r → r.typeNames = [] := by
    intro n r h
    unfold pokedexIntent at h
    split at h
    · cases h; rfl
    · cases h
  unfold classifyNormalized
  split
  · exact List.nil_prefix
  split
  · next r hr =>
    unfold pokedexNumberRule at hr
    split at hr
    · split at hr
      · rw [pok _ _ hr]; exact List.nil_prefix
      · cases hr
    · cases hr
  split
  · next r hr =>
    unfold directNumberRule at hr
    split at hr
    · rw [pok _ _ hr]; exact List.nil_prefix
    · cases hr
  split
  · next r hr =>
    unfold numberSuffixRule at hr
    split at hr
    · rw [pok _ _ hr]; exact List.nil_prefix
    · cases hr
  split
  · unfold analyzeTypeEffectivenessQuery
    split
    · next t1 t2 rest h => rw [h]; exact ⟨rest, rfl⟩
    · next t h => rw [h]; exact ⟨[], rfl⟩
    · exact List.nil_prefix
  split
  · next r hr =>
    unfold analyzeComplexQuery at hr
    simp only at hr
    split at hr
    · next g t rest _ h => cases hr; rw [h]; exact ⟨rest, rfl⟩
    · next t1 t2 rest _ h => cases hr; rw [h]; exact ⟨rest, rfl⟩
    · cases hr
  split
  · unfold analyzeGenerationQuery
    split <;> exact List.nil_prefix
  split
  · next t ht =>
    rw [findPokemonType_eq_head] at ht
    cases hl : findAllPokemonTypes input with
    | nil => rw [hl] at ht; cases ht
    | cons a l =>
      rw [hl] at ht
      unfold truthyString at ht
      simp only [List.head?_cons] at ht
      split at ht
      · cases ht
      · cases ht; exact ⟨l, rfl⟩
  split
  · split <;> exact List.nil_prefix
  split
  · next r hr =>
    unfold searchRule at hr
    split at hr
    · split at hr
      · cases hr; exact List.nil_prefix
      · cases hr
    · cases hr
  split <;> exact List.nil_prefix

/-- C21: `POKEMON_TYPES` (Korean to English) and `KOREAN_TYPE_NAMES` (English to
Korean) are mutually inverse maps on 18 types, every English tag is a key of
`TYPE_EFFECTIVENESS`, and for every type name that `analyzeIntent` puts in an
intent `convertKoreanToEnglishType` returns such a key, not `null`. -/
theorem C21_type_maps_inverse :
    POKEMON_TYPES.length = 18 ∧ KOREAN_TYPE_NAMES.length = 18 ∧
    (POKEMON_TYPES.map Prod.fst).Nodup ∧ (KOREAN_TYPE_NAMES.map Prod.fst).Nodup ∧
    (∀ p ∈ POKEMON_TYPES, KOREAN_TYPE_NAMES.lookup p.2 = some p.1) ∧
    (∀ p ∈ KOREAN_TYPE_NAMES, POKEMON_TYPES.lookup p.2 = some p.1) ∧
    (∀ p ∈ POKEMON_TYPES, (TYPE_EFFECTIVENESS.lookup p.2).isSome = true) ∧
    (∀ (T : NameTables) (userInput : String), ∀ t ∈ (analyzeIntent T userInput).typeNames,
      ∃ e, convertKoreanToEnglishType t = some e ∧
        (TYPE_EFFECTIVENESS.lookup e).isSome = true) := by
  refine ⟨by decide, by decide, by decide, by decide, by decide, by decide, by decide, ?_⟩
  intro T userInput t ht
  have hmem : t ∈ findAllPokemonTypes (normalizeInput userInput) :=
    (typeNames_prefix_findAll T (normalizeInput userInput)).subset ht
  have hkey := (mem_findAllPokemonTypes.1 hmem).1
  have all : ∀ k ∈ POKEMON_TYPES.map Prod.fst,
      (match convertKoreanToEnglishType k with
        | some e => (TYPE_EFFECTIVENESS.lookup e).isSome
        | none => false) = true := by decide
  have h := all t hkey
  cases hc : convertKoreanToEnglishType t with
  | none => rw [hc] at h; cases h
  | some e => rw [hc] at h; exact ⟨e, rfl, h⟩

/-- Witness of C21: the type of the classified `전기 타입 포켓몬 알려줘`
converts to the matrix key `electric`. -/
theorem C21_type_maps_inverse_witness :
    (analyzeIntent emptyTables "전기 타입 포켓몬 알려줘").typeNames = ["전기"] ∧
    convertKoreanToEnglishType "전기" = some "electric" ∧
    ∃ e, convertKoreanToEnglishType "전기" = some e ∧
      (TYPE_EFFECTIVENESS.lookup e).isSome = true :=
  ⟨by decide, by decide,
    C21_type_maps_inverse.2.2.2.2.2.2.2 emptyTables "전기 타입 포켓몬 알려줘" "전기"
      (by decide)⟩

/-! ## The strategic summary -/

/-- A double is not both above and below one. -/
theorem JSNumber.not_gtOne_and_ltOne (m : JSNumber) :
    ¬ (m.gtOne = true ∧ m.ltOne = true) := by
  cases m with
  | zero => simp [JSNumber.gtOne]
  | pow2 k => simp only [JSNumber.gtOne, JSNumber.ltOne, decide_eq_true_eq]; omega
  | infinity => simp [JSNumber.ltOne]
  | nan => simp [JSNumber.gtOne]

/-- The two comparisons are the comparisons of the rational values. -/
theorem JSNumber.compare_one_toRat {m : JSNumber} {q : ℚ} (h : m.toRat = some q) :
    (m.gtOne = true ↔ 1 < q) ∧ (m.ltOne = true ↔ q < 1) := by
  have two_gt : (1 : ℚ) < 2 := by norm_num
  cases m with
  | zero =>
    simp only [JSNumber.toRat, Option.some.injEq] at h
    subst h
    simp [JSNumber.gtOne, JSNumber.ltOne]
  | pow2 k =>
    simp only [JSNumber.toRat, Option.some.injEq] at h
    subst h
    simp only [JSNumber.gtOne, JSNumber.ltOne, decide_eq_true_eq]
    rcases lt_trichotomy k 0 with hk | hk | hk
    · have := zpow_lt_one_of_neg₀ two_gt hk
      exact ⟨⟨fun h0 => absurd h0 (by omega), fun h1 => absurd h1 (not_lt.2 this.le)⟩,
        ⟨fun _ => this, fun _ => hk⟩⟩
    · subst hk
      simp
    · have := one_lt_zpow₀ two_gt hk
      exact ⟨⟨fun _ => this, fun _ => hk⟩,
        ⟨fun h0 => absurd h0 (by omega), fun h1 => absurd h1 (not_lt.2 this.le)⟩⟩
  | infinity => simp [JSNumber.toRat] at h
  | nan => simp [JSNumber.toRat] at h

/-- C25: `getTypeVsTypeStrategy` returns the type1-advantage summary when
`m1 > 1` and `m2 < 1`, the type2-advantage summary when `m1 < 1` and `m2 > 1`,
the mutual-strong summary when both are above 1, the mutual-weak summary when
both are below 1, and the balanced summary in every other case; the four
conditions exclude one another, so exactly one of the five applies. -/
theorem C25_strategy_table (type1 type2 : String) (m1 m2 : JSNumber) :
    (m1.gtOne = true ∧ m2.ltOne = true →
      getTypeVsTypeStrategy type1 type2 m1 m2 = type1AdvantageText type1 type2) ∧
    (m1.ltOne = true ∧ m2.gtOne = true →
      getTypeVsTypeStrategy type1 type2 m1 m2 = type2AdvantageText type1 type2) ∧
    (m1.gtOne = true ∧ m2.gtOne = true →
      getTypeVsTypeStrategy type1 type2 m1 m2 = mutualStrongText) ∧
    (m1.ltOne = true ∧ m2.ltOne = true →
      getTypeVsTypeStrategy type1 type2 m1 m2 = mutualWeakText) ∧
    (¬ (m1.gtOne = true ∧ m2.ltOne = true) ∧ ¬ (m1.ltOne = true ∧ m2.gtOne = true) ∧
      ¬ (m1.gtOne = true ∧ m2.gtOne = true) ∧ ¬ (m1.ltOne = true ∧ m2.ltOne = true) →
      getTypeVsTypeStrategy type1 type2 m1 m2 = balancedText) ∧
    ¬ (m1.gtOne = true ∧ m1.ltOne = true) ∧ ¬ (m2.gtOne = true ∧ m2.ltOne = true) := by
  have e1 := JSNumber.not_gtOne_and_ltOne m1
  have e2 := JSNumber.not_gtOne_and_ltOne m2
  unfold getTypeVsTypeStrategy
  cases h1 : m1.gtOne <;> cases h2 : m1.ltOne <;> cases h3 : m2.gtOne <;>
    cases h4 : m2.ltOne <;> simp_all

/-- Witness of C25: one pair of multipliers for each of the five summaries. -/
theorem C25_strategy_table_witness :
    getTypeVsTypeStrategy "불꽃" "풀" JSNumber.two JSNumber.half
      = type1AdvantageText "불꽃" "풀" ∧
    getTypeVsTypeStrategy "풀" "불꽃" JSNumber.half JSNumber.two
      = type2AdvantageText "풀" "불꽃" ∧
    getTypeVsTypeStrategy "고스트" "고스트" JSNumber.two JSNumber.two = mutualStrongText ∧
    getTypeVsTypeStrategy "불꽃" "물" JSNumber.half JSNumber.half = mutualWeakText ∧
    getTypeVsTypeStrategy "노말" "물" JSNumber.one JSNumber.one = balancedText :=
  ⟨(C25_strategy_table "불꽃" "풀" JSNumber.two JSNumber.half).1 ⟨by decide, by decide⟩,
   (C25_strategy_table "풀" "불꽃" JSNumber.half JSNumber.two).2.1 ⟨by decide, by decide⟩,
   (C25_strategy_table "고스트" "고스트" JSNumber.two JSNumber.two).2.2.1
     ⟨by decide, by decide⟩,
   (C25_strategy_table "불꽃" "물" JSNumber.half JSNumber.half).2.2.2.1
     ⟨by decide, by decide⟩,
   (C25_strategy_table "노말" "물" JSNumber.one JSNumber.one).2.2.2.2.1
     ⟨by decide, by decide, by decide, by decide⟩⟩

/-- C26, the code at the claim's input: for `물` against `전기`, which is what
the classifier makes of the help text's own example, the multipliers are 1 and
2, yet the summary is the balanced one; in general the balanced summary only
tells that one of the two multipliers is neither above nor below 1. -/
theorem C26_balanced_with_unequal_multipliers :
    handleTypeVsTypeEffectiveness "물" "전기" = .analysis
      ⟨"물", "전기", "보통 효과입니다", JSNumber.one, "효과가 굉장합니다", JSNumber.two,
        balancedText⟩ ∧
    getTypeVsTypeStrategy "물" "전기" JSNumber.one JSNumber.two = balancedText ∧
    JSNumber.two ≠ JSNumber.one ∧
    (∀ (type1 type2 : String) (m1 m2 : JSNumber),
      (m1.gtOne = false ∧ m1.ltOne = false) ∨ (m2.gtOne = false ∧ m2.ltOne = false) →
      getTypeVsTypeStrategy type1 type2 m1 m2 = balancedText) := by
  refine ⟨by decide, by decide, by decide, ?_⟩
  intro type1 type2 m1 m2 h
  unfold getTypeVsTypeStrategy
  rcases h with ⟨h1, h2⟩ | ⟨h1, h2⟩ <;> simp [h1, h2]

/-- C29: `getTypeVsTypeStrategy` is symmetric under swapping the two sides. -/
theorem C29_strategy_symmetric (a b : String) (m1 m2 : JSNumber) :
    getTypeVsTypeStrategy a b m1 m2 = getTypeVsTypeStrategy b a m2 m1 := by
  have e1 := JSNumber.not_gtOne_and_ltOne m1
  have e2 := JSNumber.not_gtOne_and_ltOne m2
  have swap1 : type1AdvantageText a b = type2AdvantageText b a := rfl
  have swap2 : type2AdvantageText a b = type1AdvantageText b a := rfl
  unfold getTypeVsTypeStrategy
  cases h1 : m1.gtOne <;> cases h2 : m1.ltOne <;> cases h3 : m2.gtOne <;>
    cases h4 : m2.ltOne <;> simp_all
/-! ## Mutual strength -/

/-- C28: no two distinct types among the 18 are super-effective against each
other, in the matrix and in the analysis of `handleTypeVsTypeEffectiveness`;
the two types of a classified `get_type_vs_type_effectiveness` intent are
distinct table keys, so its analysis never carries the mutual-strong
summary. -/
theorem C28_no_mutual_strength :
    (∀ a ∈ TYPE_EFFECTIVENESS.map Prod.fst, ∀ b ∈ TYPE_EFFECTIVENESS.map Prod.fst, a ≠ b →
      ¬ ((calculateTypeEffectiveness a [b]).gtOne = true ∧
        (calculateTypeEffectiveness b [a]).gtOne = true)) ∧
    (∀ (T : NameTables) (userInput t1 t2 : String),
      analyzeIntent T userInput = .get_type_vs_type_effectiveness t1 t2 →
      t1 ≠ t2 ∧ ∃ report, handleTypeVsTypeEffectiveness t1 t2 = .analysis report ∧
        ¬ (report.multiplier1.gtOne = true ∧ report.multiplier2.gtOne = true) ∧
        report.strategy ≠ mutualStrongText) := by
  refine ⟨by decide, ?_⟩
  intro T userInput t1 t2 h
  have hpre := typeNames_prefix_findAll T (normalizeInput userInput)
  have h' : classifyNormalized T (normalizeInput userInput)
      = .get_type_vs_type_effectiveness t1 t2 := h
  rw [h'] at hpre
  obtain ⟨rest, hrest⟩ := hpre
  have hsub : (findAllPokemonTypes (normalizeInput userInput)).Sublist
      (POKEMON_TYPES.map Prod.fst) := by
    unfold findAllPokemonTypes
    split
    · exact List.nil_sublist _
    · exact List.filter_sublist _
  have hnodup : (findAllPokemonTypes (normalizeInput userInput)).Nodup :=
    hsub.nodup (by decide)
  have hk1 : t1 ∈ POKEMON_TYPES.map Prod.fst :=
    hsub.subset (by rw [← hrest]; simp [Intent.typeNames])
  have hk2 : t2 ∈ POKEMON_TYPES.map Prod.fst :=
    hsub.subset (by rw [← hrest]; simp [Intent.typeNames])
  have hne : t1 ≠ t2 := by
    rw [← hrest] at hnodup
    simp only [Intent.typeNames, List.cons_append, List.nil_append, List.nodup_cons,
      List.mem_cons, not_or] at hnodup
    exact hnodup.1.1
  have all : ∀ x ∈ POKEMON_TYPES.map Prod.fst, ∀ y ∈ POKEMON_TYPES.map Prod.fst, x ≠ y →
      (match handleTypeVsTypeEffectiveness x y with
        | .analysis report =>
          decide (¬ (report.multiplier1.gtOne = true ∧ report.multiplier2.gtOne = true) ∧
            report.strategy ≠ mutualStrongText)
        | .message _ => false) = true := by decide
  have hall := all t1 hk1 t2 hk2 hne
  refine ⟨hne, ?_⟩
  cases hh : handleTypeVsTypeEffectiveness t1 t2 with
  | message text => rw [hh] at hall; cases hall
  | analysis report =>
    rw [hh] at hall
    exact ⟨report, rfl, of_decide_eq_true hall⟩

/-- Witness of C28: fire and water, and the classified example
`전기와 물 타입 상성 알려줘`. -/
theorem C28_no_mutual_strength_witness :
    ¬ ((calculateTypeEffectiveness "fire" ["water"]).gtOne = true ∧
      (calculateTypeEffectiveness "water" ["fire"]).gtOne = true) ∧
    ("물" ≠ "전기" ∧ ∃ report, handleTypeVsTypeEffectiveness "물" "전기" = .analysis report ∧
      ¬ (report.multiplier1.gtOne = true ∧ report.multiplier2.gtOne = true) ∧
      report.strategy ≠ mutualStrongText) :=
  ⟨C28_no_mutual_strength.1 "fire" (by decide) "water" (by decide) (by decide),
   C28_no_mutual_strength.2 emptyTables "전기와 물 타입 상성 알려줘" "물" "전기" (by decide)⟩

/-! ## The generation handlers -/

/-- A generation outside 1..9 is not a key of `POKEMON_GENERATIONS`. -/
theorem lookup_generation_eq_none {g : Nat} (h : g < 1 ∨ 9 < g) :
    POKEMON_GENERATIONS.lookup g = none := by
  cases hl : POKEMON_GENERATIONS.lookup g with
  | none => rfl
  | some info =>
    have hmem := mem_of_lookup_eq_some hl
    have hk : g ∈ POKEMON_GENERATIONS.map Prod.fst := List.mem_map.2 ⟨(g, info), hmem, rfl⟩
    have keys : POKEMON_GENERATIONS.map Prod.fst = [1, 2, 3, 4, 5, 6, 7, 8, 9] := by decide
    rw [keys] at hk
    simp only [List.mem_cons, List.mem_singleton, List.not_mem_nil, or_false] at hk
    omega

/-- C22: for a generation `g` outside 1..9, whatever the provider,
`handleGenerationPokemon` and `handleGenerationTypePokemon` look nothing up and
return the unknown-generation text `❌ <g>세대 정보를 찾을 수 없습니다.`, in which
`<g>` is the text JavaScript prints for the number: the decimal numeral of `g`
when `g` is below `2^53`. -/
theorem C22_unknown_generation (bigNumberText : Nat → String) (provider : Provider)
    (g : Nat) (type : String) (h : g < 1 ∨ 9 < g) :
    handleGenerationPokemon bigNumberText provider g
      = ⟨[], "❌ " ++ numberToString bigNumberText g ++ "세대 정보를 찾을 수 없습니다."⟩ ∧
    handleGenerationTypePokemon bigNumberText provider g type
      = ⟨[], "❌ " ++ numberToString bigNumberText g ++ "세대 정보를 찾을 수 없습니다."⟩ ∧
    (g < 2 ^ 53 → numberToString bigNumberText g = Nat.repr g) := by
  unfold handleGenerationPokemon handleGenerationTypePokemon
  rw [lookup_generation_eq_none h]
  refine ⟨rfl, rfl, ?_⟩
  intro hg
  unfold numberToString
  rw [if_pos hg]

/-- Witness of C22: generation 10, with a provider that would answer every
lookup. -/
theorem C22_unknown_generation_witness :
    handleGenerationPokemon (fun _ => "") (fun _ id => .ok ⟨id, "x", "엑스", none⟩) 10
      = ⟨[], "❌ 10세대 정보를 찾을 수 없습니다."⟩ ∧
    handleGenerationTypePokemon (fun _ => "") (fun _ id => .ok ⟨id, "x", "엑스", none⟩) 10
        "불꽃"
      = ⟨[], "❌ 10세대 정보를 찾을 수 없습니다."⟩ ∧
    numberToString (fun _ => "") 10 = "10" :=
  ⟨(C22_unknown_generation (fun _ => "") (fun _ id => .ok ⟨id, "x", "엑스", none⟩) 10 "불꽃"
      (Or.inr (by decide))).1,
    (C22_unknown_generation (fun _ => "") (fun _ id => .ok ⟨id, "x", "엑스", none⟩) 10 "불꽃"
      (Or.inr (by decide))).2.1,
    (C22_unknown_generation (fun _ => "") (fun _ id => .ok ⟨id, "x", "엑스", none⟩) 10 "불꽃"
      (Or.inr (by decide))).2.2 (by decide)⟩

/-- The roster loop over consecutive ids looks every id up, in order, and
keeps exactly the species of the successful lookups. -/
theorem rosterLoop_range (provider : Provider) :
    ∀ (n s : Nat) (st : ScanState),
      rosterLoop provider (List.range' s n) st =
        ⟨st.calls ++ List.range' s n,
          st.pokemonList ++ (List.range n).filterMap
            (fun j => (provider (st.calls.length + j) (s + j)).toOption)⟩ := by
  intro n
  induction n with
  | zero => intro s st; simp [rosterLoop]
  | succ n ih =>
    intro s st
    have shift : ∀ (c : List Nat),
        (List.range n).filterMap
            (fun j => (provider ((c ++ [s]).length + j) (s + 1 + j)).toOption)
          = ((List.range n).map Nat.succ).filterMap
            (fun j => (provider (c.length + j) (s + j)).toOption) := by
      intro c
      rw [List.filterMap_map]
      congr 1
      funext j
      simp only [Function.comp, List.length_append, List.length_singleton]
      have e1 : c.length + 1 + j = c.length + j.succ := by omega
      have e2 : s + 1 + j = s + j.succ := by omega
      rw [e1, e2]
    rw [List.range'_succ, rosterLoop, List.range_succ_eq_map, List.filterMap_cons]
    cases hp : provider st.calls.length s with
    | ok pokemon =>
      simp only [ih, hp, Nat.add_zero]
      rw [shift]
      simp only [Except.toOption, List.append_assoc, List.singleton_append]
    | error e =>
      simp only [ih, hp, Nat.add_zero]
      rw [shift]
      simp only [Except.toOption, List.append_assoc, List.singleton_append]

/-- C23: for a generation of the table, `handleGenerationPokemon` looks up the
ten ids from the generation's start on, in ascending order, whatever the
provider does; its roster is exactly the species of the lookups that succeed,
in that order (a failed lookup drops its own id only), so it has at most ten
entries; and the answer is the roster template filled with it. -/
theorem C23_generation_roster (bigNumberText : Nat → String) (provider : Provider)
    (g : Nat) (genInfo : GenerationInfo)
    (h : POKEMON_GENERATIONS.lookup g = some genInfo) :
    (handleGenerationPokemon bigNumberText provider g).calls
      = (List.range 10).map (genInfo.start + ·) ∧
    (handleGenerationPokemon bigNumberText provider g).text = renderGenerationRoster genInfo
      ((List.range 10).filterMap (fun j => (provider j (genInfo.start + j)).toOption)) ∧
    ((List.range 10).filterMap
      (fun j => (provider j (genInfo.start + j)).toOption)).length ≤ 10 := by
  have window : ∀ e ∈ POKEMON_GENERATIONS,
      idsFromTo e.2.start (min (e.2.start + 9) e.2.stop) = List.range' e.2.start 10 := by
    decide
  have hw := window _ (mem_of_lookup_eq_some h)
  have hloop := rosterLoop_range provider 10 genInfo.start ⟨[], []⟩
  simp only [List.nil_append, List.length_nil, Nat.zero_add] at hloop
  unfold handleGenerationPokemon
  rw [h]
  simp only [hw, hloop]
  refine ⟨?_, trivial, ?_⟩
  · rw [List.range'_eq_map_range]
  · exact (List.length_filterMap_le _ _).trans (by simp)

/-- Witness of C23: generation 1 with a provider that fails on every odd id. -/
theorem C23_generation_roster_witness :
    (handleGenerationPokemon (fun _ => "")
        (fun _ id => if id % 2 = 0 then .ok ⟨id, "p", "피", none⟩ else .error "down") 1).calls
      = (List.range 10).map (1 + ·) ∧
    ((List.range 10).filterMap (fun j =>
        ((fun (_ : Nat) (id : Nat) =>
          if id % 2 = 0 then (Except.ok ⟨id, "p", "피", none⟩ : Except String Pokemon)
          else .error "down") j (1 + j)).toOption)).map (fun p => p.id)
      = [2, 4, 6, 8, 10] :=
  ⟨(C23_generation_roster (fun _ => "")
      (fun _ id => if id % 2 = 0 then .ok ⟨id, "p", "피", none⟩ else .error "down") 1
      ⟨"1세대", 1, 151, "관동지방"⟩ (by decide)).1, by decide⟩

/-- The loop over the known ids looks up exactly the known ids that lie in the
generation's range, and only adds species the provider returned for such an id
and that carry the type. -/
theorem knownPass_spec (provider : Provider) (type : String) (genInfo : GenerationInfo) :
    ∀ (ids : List Nat) (st : ScanState),
      (knownPass provider type genInfo ids st).calls = st.calls ++
        ids.filter (fun id => decide (genInfo.start ≤ id ∧ id ≤ genInfo.stop)) ∧
      ∀ p ∈ (knownPass provider type genInfo ids st).pokemonList,
        p ∈ st.pokemonList ∨ ∃ k id, provider k id = .ok p ∧
          genInfo.start ≤ id ∧ id ≤ genInfo.stop ∧ hasType p type = true := by
  intro ids
  induction ids with
  | nil => intro st; exact ⟨by simp [knownPass], fun p hp => Or.inl hp⟩
  | cons i rest ih =>
    intro st
    unfold knownPass
    by_cases hr : genInfo.start ≤ i ∧ i ≤ genInfo.stop
    · rw [if_pos hr, List.filter_cons_of_pos (by simpa using hr)]
      cases hp : provider st.calls.length i with
      | error e =>
        obtain ⟨hc, hl⟩ := ih ⟨st.calls ++ [i], st.pokemonList⟩
        exact ⟨by simp only [hc, List.append_assoc, List.singleton_append], hl⟩
      | ok pokemon =>
        obtain ⟨hc, hl⟩ := ih ⟨st.calls ++ [i],
          if hasType pokemon type then st.pokemonList ++ [pokemon] else st.pokemonList⟩
        refine ⟨by simp only [hc, List.append_assoc, List.singleton_append], ?_⟩
        intro p hpm
        rcases hl p hpm with h | h
        · by_cases ht : hasType pokemon type = true
          · simp only [ht, if_true, List.mem_append, List.mem_singleton] at h
            rcases h with h | h
            · exact Or.inl h
            · rw [h]
              exact Or.inr ⟨_, i, hp, hr.1, hr.2, ht⟩
          · simp only [ht, if_false] at h
            exact Or.inl h
        · exact Or.inr h
    · rw [if_neg hr, List.filter_cons_of_neg (by simpa using hr)]
      exact ih st

/-- The fallback scan looks up an initial part of its ids, and only adds
species the provider returned for one of these ids and that carry the type. -/
theorem rangeScan_spec (provider : Provider) (type : String) :
    ∀ (ids : List Nat) (st : ScanState),
      (∃ scanned, scanned <+: ids ∧
        (rangeScan provider type ids st).calls = st.calls ++ scanned) ∧
      ∀ p ∈ (rangeScan provider type ids st).pokemonList,
        p ∈ st.pokemonList ∨ ∃ k id, id ∈ ids ∧ provider k id = .ok p ∧
          hasType p type = true := by
  intro ids
  induction ids with
  | nil => intro st; exact ⟨⟨[], List.nil_prefix, by simp [rangeScan]⟩, fun p hp => Or.inl hp⟩
  | cons i rest ih =>
    intro st
    unfold rangeScan
    cases hp : provider st.calls.length i with
    | error message =>
      by_cases hb : (includes message.toList "timeout" ||
          includes message.toList "ECONNRESET") = true
      · simp only [hb, if_true]
        exact ⟨⟨[i], by simp, rfl⟩, fun p hpm => Or.inl hpm⟩
      · simp only [hb, Bool.false_eq_true, if_false]
        obtain ⟨⟨sc, hpre, hc⟩, hl⟩ := ih ⟨st.calls ++ [i], st.pokemonList⟩
        refine ⟨⟨i :: sc, by simpa using hpre, by
          simp only [hc, List.append_assoc, List.singleton_append]⟩, ?_⟩
        intro p hpm
        rcases hl p hpm with h | ⟨k, id, hid, h⟩
        · exact Or.inl h
        · exact Or.inr ⟨k, id, List.mem_cons_of_mem _ hid, h⟩
    | ok pokemon =>
      obtain ⟨⟨sc, hpre, hc⟩, hl⟩ := ih ⟨st.calls ++ [i],
        if hasType pokemon type then st.pokemonList ++ [pokemon] else st.pokemonList⟩
      refine ⟨⟨i :: sc, by simpa using hpre, by
        simp only [hc, List.append_assoc, List.singleton_append]⟩, ?_⟩
      intro p hpm
      rcases hl p hpm with h | ⟨k, id, hid, h⟩
      · by_cases ht : hasType pokemon type = true
        · simp only [ht, if_true, List.mem_append, List.mem_singleton] at h
          rcases h with h | h
          · exact Or.inl h
          · rw [h]
            exact Or.inr ⟨_, i, List.mem_cons_self _ _, hp, ht⟩
        · simp only [ht, if_false] at h
          exact Or.inl h
      · exact Or.inr ⟨k, id, List.mem_cons_of_mem _ hid, h⟩

/-- The ids of a `for` loop from `first` to `last` lie between the two. -/
theorem mem_idsFromTo {first last id : Nat} (h : id ∈ idsFromTo first last) :
    first ≤ id ∧ id ≤ last := by
  unfold idsFromTo at h
  rw [List.mem_range'_1] at h
  omega

/-- For a generation of the table, `handleGenerationTypePokemon` is the scan
followed by the choice between the no-such-type text and the list template. -/
theorem handleGenerationTypePokemon_of_lookup (bigNumberText : Nat → String)
    (provider : Provider) {g : Nat} (type : String) {genInfo : GenerationInfo}
    (h : POKEMON_GENERATIONS.lookup g = some genInfo) :
    handleGenerationTypePokemon bigNumberText provider g type =
      if (generationTypeScan provider g type genInfo).pokemonList.length = 0 then
        ⟨(generationTypeScan provider g type genInfo).calls, noSuchTypeText genInfo type⟩
      else ⟨(generationTypeScan provider g type genInfo).calls,
        renderGenerationTypeList genInfo type
          (generationTypeScan provider g type genInfo).pokemonList⟩ := by
  unfold handleGenerationTypePokemon
  rw [h]

/-- C27: for a generation of the table, every species in the list of
`handleGenerationTypePokemon` was returned by the provider for an id in the
generation's range and carries the type; the known ids in range are looked up
first, the scan looks up an initial part of the ids from the generation's start
to `min(end, start + 20)` and only runs when the known ids resolved no species;
with no species at all the answer is the no-such-type text, otherwise the list
template. -/
theorem C27_generation_type_list (bigNumberText : Nat → String) (provider : Provider)
    (g : Nat) (type : String) (genInfo : GenerationInfo)
    (h : POKEMON_GENERATIONS.lookup g = some genInfo) :
    (∀ p ∈ (generationTypeScan provider g type genInfo).pokemonList,
      ∃ k id, provider k id = .ok p ∧ genInfo.start ≤ id ∧ id ≤ genInfo.stop ∧
        hasType p type = true) ∧
    (∃ scanned, scanned <+: idsFromTo genInfo.start (min genInfo.stop (genInfo.start + 20)) ∧
      (generationTypeScan provider g type genInfo).calls =
        (getKnownPokemonByType g type).filter
          (fun id => decide (genInfo.start ≤ id ∧ id ≤ genInfo.stop)) ++ scanned ∧
      ((knownPass provider type genInfo (getKnownPokemonByType g type) ⟨[], []⟩).pokemonList
          ≠ [] →
        scanned = [] ∧ (generationTypeScan provider g type genInfo).pokemonList =
          (knownPass provider type genInfo (getKnownPokemonByType g type)
            ⟨[], []⟩).pokemonList)) ∧
    (handleGenerationTypePokemon bigNumberText provider g type).calls =
      (generationTypeScan provider g type genInfo).calls ∧
    ((generationTypeScan provider g type genInfo).pokemonList = [] →
      (handleGenerationTypePokemon bigNumberText provider g type).text
        = noSuchTypeText genInfo type) ∧
    ((generationTypeScan provider g type genInfo).pokemonList ≠ [] →
      (handleGenerationTypePokemon bigNumberText provider g type).text =
        renderGenerationTypeList genInfo type
          (generationTypeScan provider g type genInfo).pokemonList) := by
  have hk : (if (getKnownPokemonByType g type).length > 0 then
        knownPass provider type genInfo (getKnownPokemonByType g type) ⟨[], []⟩
      else (⟨[], []⟩ : ScanState))
      = knownPass provider type genInfo (getKnownPokemonByType g type) ⟨[], []⟩ := by
    cases hl : getKnownPokemonByType g type with
    | nil => simp [knownPass]
    | cons a l => simp
  obtain ⟨kc, kl⟩ := knownPass_spec provider type genInfo (getKnownPokemonByType g type)
    ⟨[], []⟩
  simp only [List.nil_append, List.not_mem_nil, false_or] at kc kl
  obtain ⟨⟨sc, spre, scalls⟩, sl⟩ := rangeScan_spec provider type
    (idsFromTo genInfo.start (min genInfo.stop (genInfo.start + 20)))
    (knownPass provider type genInfo (getKnownPokemonByType g type) ⟨[], []⟩)
  have scan_eq : generationTypeScan provider g type genInfo =
      if (knownPass provider type genInfo (getKnownPokemonByType g type)
          ⟨[], []⟩).pokemonList.length = 0 then
        rangeScan provider type
          (idsFromTo genInfo.start (min genInfo.stop (genInfo.start + 20)))
          (knownPass provider type genInfo (getKnownPokemonByType g type) ⟨[], []⟩)
      else knownPass provider type genInfo (getKnownPokemonByType g type) ⟨[], []⟩ := by
    unfold generationTypeScan
    simp only [hk]
  have handler := handleGenerationTypePokemon_of_lookup bigNumberText provider type h
  refine ⟨?_, ?_, ?_, ?_, ?_⟩
  · intro p hp
    rw [scan_eq] at hp
    split at hp
    · rcases sl p hp with h1 | ⟨k, id, hid, hok, ht⟩
      · exact kl p h1
      · have hb := mem_idsFromTo hid
        exact ⟨k, id, hok, hb.1, hb.2.trans (Nat.min_le_left _ _), ht⟩
    · exact kl p hp
  · by_cases hz : (knownPass provider type genInfo (getKnownPokemonByType g type)
        ⟨[], []⟩).pokemonList.length = 0
    · refine ⟨sc, spre, ?_, ?_⟩
      · rw [scan_eq, if_pos hz, scalls, kc]
      · intro hne
        exact absurd (List.length_eq_zero.1 hz) hne
    · refine ⟨[], List.nil_prefix, ?_, ?_⟩
      · rw [scan_eq, if_neg hz, kc, List.append_nil]
      · intro _
        rw [scan_eq, if_neg hz]
        exact ⟨rfl, rfl⟩
  · rw [handler]
    split <;> rfl
  · intro he
    rw [handler, if_pos (by rw [he]; rfl)]
  · intro hne
    rw [handler, if_neg (by
      intro hz
      exact hne (List.length_eq_zero.1 hz))]

/-- Witness of C27: a provider that knows only Pikachu (id 25), asked for the
electric type of generation 1: the known ids 25, 26, 81, ... are looked up, 25
is resolved and nothing is scanned. -/
theorem C27_generation_type_list_witness :
    (handleGenerationTypePokemon (fun _ => "")
      (fun _ id => if id = 25 then .ok ⟨25, "pikachu", "피카츄", some [⟨"electric", "전기"⟩]⟩
        else .error "missing") 1 "전기").calls
      = [25, 26, 81, 82, 100, 101, 125, 135, 145] ∧
    (generationTypeScan
      (fun _ id => if id = 25 then .ok ⟨25, "pikachu", "피카츄", some [⟨"electric", "전기"⟩]⟩
        else .error "missing") 1 "전기" ⟨"1세대", 1, 151, "관동지방"⟩).pokemonList
      = [⟨25, "pikachu", "피카츄", some [⟨"electric", "전기"⟩]⟩] ∧
    (handleGenerationTypePokemon (fun _ => "")
      (fun _ id => if id = 25 then .ok ⟨25, "pikachu", "피카츄", some [⟨"electric", "전기"⟩]⟩
        else .error "missing") 1 "전기").text
      = renderGenerationTypeList ⟨"1세대", 1, 151, "관동지방"⟩ "전기"
          (generationTypeScan
            (fun _ id =>
              if id = 25 then .ok ⟨25, "pikachu", "피카츄", some [⟨"electric", "전기"⟩]⟩
              else .error "missing") 1 "전기" ⟨"1세대", 1, 151, "관동지방"⟩).pokemonList :=
  ⟨by decide, by decide,
    (C27_generation_type_list (fun _ => "")
      (fun _ id => if id = 25 then .ok ⟨25, "pikachu", "피카츄", some [⟨"electric", "전기"⟩]⟩
        else .error "missing") 1 "전기" ⟨"1세대", 1, 151, "관동지방"⟩ (by decide)).2.2.2.2
      (by decide)⟩

/-! ## The early stop of the fallback scan -/

/-- The decimal digits of a number are digit characters. -/
theorem toDigitsCore_chars :
    ∀ (fuel n : Nat) (ds : List Char), (∀ c ∈ ds, c ∈ bareNumberChars) →
      ∀ c ∈ Nat.toDigitsCore 10 fuel n ds, c ∈ bareNumberChars := by
  intro fuel
  induction fuel with
  | zero => intro n ds hds c hc; exact hds c (by simpa [Nat.toDigitsCore] using hc)
  | succ fuel ih =>
    intro n ds hds c hc
    have hdigit : Nat.digitChar (n % 10) ∈ bareNumberChars := by
      have hlt : n % 10 < 10 := Nat.mod_lt _ (by decide)
      generalize n % 10 = d at hlt
      interval_cases d <;> decide
    have hcons : ∀ c ∈ Nat.digitChar (n % 10) :: ds, c ∈ bareNumberChars := by
      intro c hc
      rcases List.mem_cons.1 hc with h | h
      · rw [h]; exact hdigit
      · exact hds c h
    unfold Nat.toDigitsCore at hc
    simp only at hc
    split at hc
    · exact hcons c hc
    · exact ih _ _ hcons c hc

/-- The message of an error thrown by `getPokemonById` contains neither
`timeout` nor `ECONNRESET`, whatever the underlying failure was. -/
theorem getPokemonById_message (transport : Provider) (k id : Nat) (message : String)
    (h : getPokemonById transport k id = .error message) :
    includes message.toList "timeout" = false ∧
      includes message.toList "ECONNRESET" = false := by
  unfold getPokemonById at h
  cases ht : transport k id with
  | ok pokemon => rw [ht] at h; cases h
  | error e =>
    rw [ht] at h
    simp only [Except.error.injEq] at h
    have hchars : ∀ c ∈ message.toList,
        c ∈ "ID 에 해당하는 포켓몬을 찾을 수 없습니다.".toList ++ bareNumberChars := by
      intro c hc
      rw [← h] at hc
      simp only [String.toList, String.data_append, List.mem_append] at hc
      rcases hc with (hc | hc) | hc
      · exact List.mem_append_left _ (by revert c; decide)
      · exact List.mem_append_right _
          (toDigitsCore_chars _ _ [] (fun _ hx => absurd hx (List.not_mem_nil _)) c hc)
      · exact List.mem_append_left _ (by revert c; decide)
    exact ⟨includes_eq_false_of_foreign hchars "timeout" (by decide),
      includes_eq_false_of_foreign hchars "ECONNRESET" (by decide)⟩

/-- C24, the code on the provider it is given: the errors of
`PokemonAPI.getPokemonById` carry a fixed message, which the test for `timeout`
and `ECONNRESET` never matches, so the fallback scan looks up every id of its
window even when every request times out (generation 1, type `악`: all of the
ids 1..21); the early stop only works on a provider that passes the transport
message on, where the same scan ends after one lookup. -/
theorem C24_scan_never_stops_early (bigNumberText : Nat → String) (transport : Provider)
    (type : String) :
    (∀ (ids : List Nat) (st : ScanState),
      (rangeScan (getPokemonById transport) type ids st).calls = st.calls ++ ids) ∧
    handleGenerationTypePokemon bigNumberText
        (getPokemonById (fun _ _ => .error "timeout of 10000ms exceeded")) 1 "악"
      = ⟨idsFromTo 1 21, "❌ 1세대에는 악 타입 포켓몬이 없습니다."⟩ ∧
    (idsFromTo 1 21).length = 21 ∧
    (rangeScan (fun _ _ => .error "timeout of 10000ms exceeded") "악" (idsFromTo 1 21)
      ⟨[], []⟩).calls = [1] := by
  refine ⟨?_, ?_, by decide, by decide⟩
  swap
  · rw [handleGenerationTypePokemon_of_lookup bigNumberText _ "악"
      (by decide : POKEMON_GENERATIONS.lookup 1 = some ⟨"1세대", 1, 151, "관동지방"⟩)]
    decide
  intro ids
  induction ids with
  | nil => intro st; simp [rangeScan]
  | cons i rest ih =>
    intro st
    unfold rangeScan
    cases hp : getPokemonById transport st.calls.length i with
    | ok pokemon =>
      simp only [ih, List.append_assoc, List.singleton_append]
    | error message =>
      obtain ⟨h1, h2⟩ := getPokemonById_message transport _ _ _ hp
      simp only [h1, h2, Bool.or_self, Bool.false_eq_true, if_false, ih, List.append_assoc,
        List.singleton_append]

/-! ## The bare-integer rule is redundant -/

/-- Dropping leading white space does nothing to a text that starts with
another character. -/
theorem dropWhile_isWhiteSpace_cons {a : Char} {l : Text} (h : isWhiteSpace a = false) :
    (a :: l).dropWhile isWhiteSpace = a :: l :=
  List.dropWhile_cons_of_neg (by simp [h])

/-- What is left after dropping leading white space does not start with white
space. -/
theorem head_dropWhile_isWhiteSpace {s : Text} {a : Char} {l : Text}
    (h : s.dropWhile isWhiteSpace = a :: l) : isWhiteSpace a = false := by
  induction s with
  | nil => cases h
  | cons b s ih =>
    by_cases hb : isWhiteSpace b = true
    · rw [List.dropWhile_cons_of_pos hb] at h
      exact ih h
    · rw [List.dropWhile_cons_of_neg hb] at h
      cases h
      simpa using hb

/-- Trimming is idempotent. -/
theorem trim_trim (s : Text) : trim (trim s) = trim s := by
  unfold trim
  generalize ha : s.dropWhile isWhiteSpace = a
  generalize hb : a.reverse.dropWhile isWhiteSpace = b
  have hbb : b.dropWhile isWhiteSpace = b := by
    cases hbl : b with
    | nil => rfl
    | cons x xs =>
      rw [hbl] at hb
      exact dropWhile_isWhiteSpace_cons (head_dropWhile_isWhiteSpace hb)
  have hpre : b.reverse <+: a := by
    have hsuf : b <:+ a.reverse := by rw [← hb]; exact List.dropWhile_suffix _
    have := List.reverse_prefix.2 hsuf
    rwa [List.reverse_reverse] at this
  have hfront : b.reverse.dropWhile isWhiteSpace = b.reverse := by
    cases hr : b.reverse with
    | nil => rfl
    | cons x xs =>
      rw [hr] at hpre
      obtain ⟨t, ht⟩ := hpre
      rw [← ht, List.cons_append] at ha
      exact dropWhile_isWhiteSpace_cons (head_dropWhile_isWhiteSpace ha)
  rw [hfront, List.reverse_reverse, hbb]

/-- On a trimmed text, what rule 3 returns is returned by rule 4 as well. -/
theorem directNumberRule_subsumed {input : Text} (ht : trim input = input) (r : Intent)
    (h : directNumberRule input = some r) : numberSuffixRule input = some r := by
  unfold directNumberRule at h
  rw [ht] at h
  split at h
  · next hd =>
    unfold isAllDigits at hd
    simp only [Bool.and_eq_true, Bool.not_eq_true', List.all_eq_true] at hd
    have hne : input ≠ [] := by
      intro he
      rw [he] at hd
      exact absurd hd.1 (by decide)
    rw [(number_rules_on_digits hne hd.2).2.1]
    exact h
  · cases h

/-- C30: `analyzeIntent` returns the same intent as its variant without the
bare-integer rule, for every input and every pair of name tables. -/
theorem C30_bare_integer_rule_redundant (T : NameTables) (userInput : String) :
    analyzeIntent T userInput = analyzeIntentWithoutRule3 T userInput := by
  have ht : trim (normalizeInput userInput) = normalizeInput userInput := by
    unfold normalizeInput
    exact trim_trim _
  unfold analyzeIntent analyzeIntentWithoutRule3 classifyNormalized
    classifyNormalizedWithoutRule3
  cases h3 : directNumberRule (normalizeInput userInput) with
  | none => rfl
  | some r =>
    rw [directNumberRule_subsumed ht r h3]
end PokeChat
